import Mathlib

/-!
Shallow embedding of the backbone assembly code of this repository
(`maskrcnn_benchmark/modeling/backbone/resnet.py` and
`maskrcnn_benchmark/modeling/backbone/backbone.py`).

Python classes become Lean structures holding their construction-time state,
constructors and builders become functions returning `Except PyError _`
(a raised exception or a fatal `exit()` is an `error` value), and tensor
computation is kept symbolic through an abstract `TensorOps` interface, so
that the order in which sub-modules are applied is fully visible.
-/

namespace MaskRCNN

/-- Python exceptions and fatal exits the embedded code can produce. -/
inductive PyError where
  | nameError
  | keyError
  | indexError
  | attributeError
  | assertionError
  | exitError
deriving DecidableEq, Repr, Inhabited

/-- StageSpec namedtuple (resnet.py lines 33-40): stage index, number of
residual blocks, and whether the stage's last feature map is returned. -/
structure StageSpec where
  index : Nat
  block_count : Nat
  return_features : Bool
deriving DecidableEq, Repr, Inhabited

/-- ResNet-50 including all stages (resnet.py lines 46-49). -/
def ResNet50StagesTo5 : List StageSpec :=
  [⟨1, 3, false⟩, ⟨2, 4, false⟩, ⟨3, 6, false⟩, ⟨4, 3, true⟩]

/-- ResNet-50 up to stage 4 (resnet.py lines 51-54). -/
def ResNet50StagesTo4 : List StageSpec :=
  [⟨1, 3, false⟩, ⟨2, 4, false⟩, ⟨3, 6, true⟩]

/-- ResNet-101 including all stages (resnet.py lines 56-59). -/
def ResNet101StagesTo5 : List StageSpec :=
  [⟨1, 3, false⟩, ⟨2, 4, false⟩, ⟨3, 23, false⟩, ⟨4, 3, true⟩]

/-- ResNet-101 up to stage 4 (resnet.py lines 61-64). -/
def ResNet101StagesTo4 : List StageSpec :=
  [⟨1, 3, false⟩, ⟨2, 4, false⟩, ⟨3, 23, true⟩]

/-- ResNet-50-FPN (resnet.py lines 66-69). -/
def ResNet50FPNStagesTo5 : List StageSpec :=
  [⟨1, 3, true⟩, ⟨2, 4, true⟩, ⟨3, 6, true⟩, ⟨4, 3, true⟩]

/-- ResNet-101-FPN (resnet.py lines 71-74). -/
def ResNet101FPNStagesTo5 : List StageSpec :=
  [⟨1, 3, true⟩, ⟨2, 4, true⟩, ⟨3, 23, true⟩, ⟨4, 3, true⟩]

/-- ResNet-152-FPN (resnet.py lines 76-79). -/
def ResNet152FPNStagesTo5 : List StageSpec :=
  [⟨1, 3, true⟩, ⟨2, 8, true⟩, ⟨3, 36, true⟩, ⟨4, 3, true⟩]

/-- Custom model (resnet.py lines 84-87). -/
def ResNet50_3_4_2 : List StageSpec :=
  [⟨1, 3, false⟩, ⟨2, 4, false⟩, ⟨3, 2, true⟩]

/-- Custom model (resnet.py lines 89-92). -/
def ResNet50_3_4_8 : List StageSpec :=
  [⟨1, 3, false⟩, ⟨2, 4, false⟩, ⟨3, 8, true⟩]

/-- Custom model (resnet.py lines 94-97). -/
def ResNet50_3_4_14 : List StageSpec :=
  [⟨1, 3, false⟩, ⟨2, 4, false⟩, ⟨3, 14, true⟩]

/-- Custom model (resnet.py lines 99-102). -/
def ResNet50_3_4_20 : List StageSpec :=
  [⟨1, 3, false⟩, ⟨2, 4, false⟩, ⟨3, 20, true⟩]

/-- Architecture catalog `_STAGE_SPECS` (resnet.py lines 755-770); a lookup
miss in a `Registry` raises `KeyError`, modelled by `none` at use sites. -/
def _STAGE_SPECS (name : String) : Option (List StageSpec) :=
  if name = "R-50-C4" then some ResNet50StagesTo4
  else if name = "R-50-C5" then some ResNet50StagesTo5
  else if name = "R-101-C4" then some ResNet101StagesTo4
  else if name = "R-101-C5" then some ResNet101StagesTo5
  else if name = "R-50-FPN" then some ResNet50FPNStagesTo5
  else if name = "R-50-FPN-RETINANET" then some ResNet50FPNStagesTo5
  else if name = "R-101-FPN" then some ResNet101FPNStagesTo5
  else if name = "R-101-FPN-RETINANET" then some ResNet101FPNStagesTo5
  else if name = "R-152-FPN" then some ResNet152FPNStagesTo5
  else if name = "R-50-3_4_2" then some ResNet50_3_4_2
  else if name = "R-50-3_4_8" then some ResNet50_3_4_8
  else if name = "R-50-3_4_14" then some ResNet50_3_4_14
  else if name = "R-50-3_4_20" then some ResNet50_3_4_20
  else none

/-- Normalization function selector: `FrozenBatchNorm2d`, `group_norm`, or
(for the `use_unfixed_bn` override, resnet.py lines 572-575) `nn.BatchNorm2d`. -/
inductive NormKind where
  | frozenBN
  | groupNorm
  | batchNorm
deriving DecidableEq, Repr, Inhabited

/-- Stem registry `_STEM_MODULES` (resnet.py lines 750-753); the two stem
variants differ only in the normalization function passed to `BaseStem`. -/
def _STEM_MODULES (name : String) : Option NormKind :=
  if name = "StemWithFixedBatchNorm" then some NormKind.frozenBN
  else if name = "StemWithGN" then some NormKind.groupNorm
  else none

/-- Transformation registry `_TRANSFORMATION_MODULES` (resnet.py lines
745-748); the two bottleneck variants differ only in the normalization
function passed to `Bottleneck` (resnet.py lines 675-737). -/
def _TRANSFORMATION_MODULES (name : String) : Option NormKind :=
  if name = "BottleneckWithFixedBatchNorm" then some NormKind.frozenBN
  else if name = "BottleneckWithGN" then some NormKind.groupNorm
  else none

/-- Configuration object: the `cfg.MODEL...` fields read by the embedded code.
`anchor_stride0` is `cfg.MODEL.RPN.ANCHOR_STRIDE[0]`. -/
structure Config where
  conv_body : String
  stem_func : String
  trans_func : String
  use_fpn : Bool
  resreg : Int
  anchor_stride0 : Nat
  dilations : List Nat
  num_groups : Nat
  width_per_group : Nat
  stem_out_channels : Nat
  res2_out_channels : Nat
  stride_in_1x1 : Bool
  stage_with_dcn : List Bool
  with_modulated_dcn : Bool
  deformable_groups : Nat
  middle_kernel_sizes : List (List Nat)
  dont_load : List String
  freeze_at : Int
  backbone_out_channels : Nat
  ewadaptive_c2 : List (Nat × Nat)
  ewadaptive_c3 : List (Nat × Nat)
  ewadaptive_c4 : List (Nat × Nat)
deriving DecidableEq, Repr, Inhabited

/-- The `dcn_config` dictionary passed to each block (resnet.py lines 383-387). -/
structure DCNConfig where
  stage_with_dcn : Bool
  with_modulated_dcn : Bool
  deformable_groups : Nat
deriving DecidableEq, Repr, Inhabited

/-- Construction-time state of a `Conv2d` layer: the geometry arguments of the
call (weights themselves are kept abstract). -/
structure ConvSpec where
  in_channels : Nat
  out_channels : Nat
  kernel_size : Nat
  stride : Nat
  padding : Nat
  dilation : Nat
  groups : Nat
deriving DecidableEq, Repr, Inhabited

/-- Construction-time state of a `DFConv2d` deformable convolution layer
(resnet.py lines 582-593). -/
structure DFConvSpec where
  in_channels : Nat
  out_channels : Nat
  with_modulated_dcn : Bool
  kernel_size : Nat
  stride : Nat
  groups : Nat
  dilation : Nat
  deformable_groups : Nat
deriving DecidableEq, Repr, Inhabited

/-- The middle (spatial) convolution of a bottleneck: plain or deformable. -/
inductive SpatialConv where
  | conv (c : ConvSpec)
  | dfconv (c : DFConvSpec)
deriving DecidableEq, Repr, Inhabited

/-- A normalization layer: its kind and channel count. -/
structure NormSpec where
  kind : NormKind
  channels : Nat
deriving DecidableEq, Repr, Inhabited

/-- Construction-time state of a `Bottleneck` block (resnet.py lines 523-628). -/
structure Bottleneck where
  downsample : Option (ConvSpec × NormSpec)
  conv1 : ConvSpec
  bn1 : NormSpec
  conv2 : SpatialConv
  bn2 : NormSpec
  conv3 : ConvSpec
  bn3 : NormSpec
deriving DecidableEq, Repr, Inhabited

/-- Bottleneck constructor, `Bottleneck.__init__` (resnet.py lines 524-628).
The downsample shortcut is built iff `in_channels != out_channels` (line 541),
with a 1x1 convolution at `down_stride = stride` (lines 542-549).  Stride
placement follows line 562, and the spatial convolution and its padding follow
lines 578-611.  Weight initialization is not modelled (it touches no geometry). -/
def Bottleneck.make (in_channels bottleneck_channels out_channels num_groups : Nat)
    (stride_in_1x1 : Bool) (stride dilation : Nat) (norm_func : NormKind)
    (dcn_config : DCNConfig) (middle_k : Nat) (use_unfixed_bn : Bool) : Bottleneck :=
  let downsample : Option (ConvSpec × NormSpec) :=
    if in_channels ≠ out_channels then
      some (⟨in_channels, out_channels, 1, stride, 0, 1, 1⟩, ⟨norm_func, out_channels⟩)
    else none
  let stride_1x1 : Nat := if stride_in_1x1 then stride else 1
  let stride_3x3 : Nat := if stride_in_1x1 then 1 else stride
  let bnOf : Nat → NormSpec := fun ch =>
    if use_unfixed_bn then ⟨NormKind.batchNorm, ch⟩ else ⟨norm_func, ch⟩
  let conv2 : SpatialConv :=
    if dcn_config.stage_with_dcn then
      SpatialConv.dfconv ⟨bottleneck_channels, bottleneck_channels,
        dcn_config.with_modulated_dcn, middle_k, stride_3x3, num_groups, dilation,
        dcn_config.deformable_groups⟩
    else
      SpatialConv.conv ⟨bottleneck_channels, bottleneck_channels, middle_k, stride_3x3,
        (if middle_k = 1 then 0 else dilation), dilation, num_groups⟩
  { downsample := downsample
    conv1 := ⟨in_channels, bottleneck_channels, 1, stride_1x1, 0, 1, 1⟩
    bn1 := bnOf bottleneck_channels
    conv2 := conv2
    bn2 := bnOf bottleneck_channels
    conv3 := ⟨bottleneck_channels, out_channels, 1, 1, 0, 1, 1⟩
    bn3 := bnOf out_channels }

/-- Stride of the middle (spatial) convolution of a block. -/
def Bottleneck.spatialStride (b : Bottleneck) : Nat :=
  match b.conv2 with
  | SpatialConv.conv c => c.stride
  | SpatialConv.dfconv c => c.stride

/-- Dilation of the middle (spatial) convolution of a block. -/
def Bottleneck.spatialDilation (b : Bottleneck) : Nat :=
  match b.conv2 with
  | SpatialConv.conv c => c.dilation
  | SpatialConv.dfconv c => c.dilation

/-- Kernel size of the middle (spatial) convolution of a block. -/
def Bottleneck.middleKernel (b : Bottleneck) : Nat :=
  match b.conv2 with
  | SpatialConv.conv c => c.kernel_size
  | SpatialConv.dfconv c => c.kernel_size

/-- Overall spatial stride of a block: the strides of its two strided
convolutions multiplied (exactly one of them carries the block stride). -/
def Bottleneck.totalStride (b : Bottleneck) : Nat :=
  b.conv1.stride * b.spatialStride

/-- Abstract tensor operations; the embedding is parametric in them so module
application order stays visible without modelling numerical convolution. -/
structure TensorOps (T : Type) where
  conv : ConvSpec → T → T
  dfconv : DFConvSpec → T → T
  norm : NormSpec → T → T
  relu : T → T
  add : T → T → T
  maxPool : Nat → Nat → Nat → T → T

/-- Apply the middle convolution of a block. -/
def SpatialConv.applyOps {T : Type} (ops : TensorOps T) : SpatialConv → T → T
  | SpatialConv.conv c, x => ops.conv c x
  | SpatialConv.dfconv c, x => ops.dfconv c x

/-- Main path of `Bottleneck.forward` (resnet.py lines 633-642): conv1, bn1,
relu, conv2, bn2, relu, conv3, bn3. -/
def Bottleneck.mainPath {T : Type} (b : Bottleneck) (ops : TensorOps T) (x : T) : T :=
  let out := ops.relu (ops.norm b.bn1 (ops.conv b.conv1 x))
  let out := ops.relu (ops.norm b.bn2 (SpatialConv.applyOps ops b.conv2 out))
  ops.norm b.bn3 (ops.conv b.conv3 out)

/-- Bottleneck.forward (resnet.py lines 630-650): the shortcut is the input
itself, unless a downsample module exists, in which case it is the downsample
applied to the input; the element-wise sum is followed by a relu. -/
def Bottleneck.forward {T : Type} (b : Bottleneck) (ops : TensorOps T) (x : T) : T :=
  let identity :=
    match b.downsample with
    | none => x
    | some dn => ops.norm dn.2 (ops.conv dn.1 x)
  ops.relu (ops.add (b.mainPath ops x) identity)

/-- Loop body of `_make_stage` (resnet.py lines 501-519): iteration counter
`i` indexes `middle_ks`; `stride` is the current first argument and is reset
to 1 after the first block; `in_channels` is reset to `out_channels` after
the first block.  `middle_ks[i]` out of range raises `IndexError`. -/
def makeStageGo (norm_func : NormKind) (bottleneck_channels out_channels num_groups : Nat)
    (stride_in_1x1 : Bool) (dilation : Nat) (dcn_config : DCNConfig)
    (middle_ks : List Nat) (use_unfixed_bn : Bool) :
    Nat → Nat → Nat → Nat → Except PyError (List Bottleneck)
  | _, 0, _, _ => Except.ok []
  | i, r + 1, stride, in_channels =>
    match middle_ks[i]? with
    | none => Except.error PyError.indexError
    | some mk =>
      let b := Bottleneck.make in_channels bottleneck_channels out_channels num_groups
        stride_in_1x1 stride dilation norm_func dcn_config mk use_unfixed_bn
      match makeStageGo norm_func bottleneck_channels out_channels num_groups
          stride_in_1x1 dilation dcn_config middle_ks use_unfixed_bn
          (i + 1) r 1 out_channels with
      | Except.error e => Except.error e
      | Except.ok rest => Except.ok (b :: rest)

/-- Stage builder `_make_stage` (resnet.py lines 483-520): an empty
`middle_ks` defaults to kernel size 3 for every block (lines 498-499), then
`block_count` blocks are chained. -/
def _make_stage (norm_func : NormKind)
    (in_channels bottleneck_channels out_channels block_count num_groups : Nat)
    (stride_in_1x1 : Bool) (first_stride dilation : Nat) (dcn_config : DCNConfig)
    (middle_ks : List Nat) (use_unfixed_bn : Bool) : Except PyError (List Bottleneck) :=
  let mks := if middle_ks.isEmpty then List.replicate block_count 3 else middle_ks
  makeStageGo norm_func bottleneck_channels out_channels num_groups stride_in_1x1
    dilation dcn_config mks use_unfixed_bn 0 block_count first_stride in_channels

/-- Construction-time state of `BaseStem` (resnet.py lines 653-672). -/
structure StemModule where
  norm : NormKind
  out_channels : Nat
  conv1 : ConvSpec
deriving DecidableEq, Repr, Inhabited

/-- BaseStem constructor (resnet.py lines 654-665): a 7x7 stride-2 pad-3
convolution from 3 channels to `STEM_OUT_CHANNELS`, plus normalization. -/
def BaseStem.make (cfg : Config) (norm_func : NormKind) : StemModule :=
  { norm := norm_func
    out_channels := cfg.stem_out_channels
    conv1 := ⟨3, cfg.stem_out_channels, 7, 2, 3, 1, 1⟩ }

/-- BaseStem.forward (resnet.py lines 667-672): conv, norm, relu, then a
3x3 stride-2 pad-1 max pool. -/
def StemModule.applyOps {T : Type} (ops : TensorOps T) (st : StemModule) (x : T) : T :=
  ops.maxPool 3 2 1 (ops.relu (ops.norm ⟨st.norm, st.out_channels⟩ (ops.conv st.conv1 x)))

/-- One constructed ResNet stage, the module registered as `layer{index}`
(resnet.py lines 348-394).  `params` holds one trainability flag per residual
block: the source only ever flips `requires_grad` uniformly for all parameters
of a stage (lines 407-408), so one flag per block faithfully tracks "every
parameter of this stage".  `out_channels` records the loop's per-stage channel
count (line 352), the channel count of the stage's output. -/
structure StageModule where
  index : Nat
  name : String
  return_features : Bool
  out_channels : Nat
  blocks : List Bottleneck
  params : List Bool
deriving DecidableEq, Repr, Inhabited

/-- Per-stage middle kernel sizes (resnet.py lines 355-358): taken from the
configured `MIDDLE_KERNEL_SIZES[stage_idx]` when that list is non-empty
(raising `IndexError` when `stage_idx` is out of range), and defaulting to
kernel size 3 for every block otherwise. -/
def stageMiddleKs (cfg : Config) (spec : StageSpec) (stage_idx : Nat) :
    Except PyError (List Nat) :=
  if cfg.middle_kernel_sizes.isEmpty then
    Except.ok (List.replicate spec.block_count 3)
  else
    match cfg.middle_kernel_sizes[stage_idx]? with
    | none => Except.error PyError.indexError
    | some ks => Except.ok ks

/-- Per-stage first stride and dilation (resnet.py lines 365-370): with a
pyramid network or a non-zero RESREG adapter, `first_stride` is
`int(index > 1) + 1` and dilation is 1; otherwise both are read positionally
from the `strides` schedule and the configured `DILATIONS` list.  The `none`
case for `strides` models the Python local being unbound, which cannot happen
on this path (the schedule is always assigned when the same condition held at
lines 323-334). -/
def stageStrideDilation (cfg : Config) (strides : Option (List Nat))
    (spec : StageSpec) (stage_idx : Nat) : Except PyError (Nat × Nat) :=
  if cfg.use_fpn = true ∨ cfg.resreg ≠ 0 then
    Except.ok ((if 1 < spec.index then 2 else 1), 1)
  else
    match strides with
    | none => Except.error PyError.nameError
    | some ss =>
      match ss[stage_idx]? with
      | none => Except.error PyError.indexError
      | some fs =>
        match cfg.dilations[stage_idx]? with
        | none => Except.error PyError.indexError
        | some d => Except.ok (fs, d)

/-- One iteration of the stage-construction loop in `ResNet.__init__`
(resnet.py lines 348-394): derive the per-stage channel counts from the
2^(index-1) relative factor, read the per-stage deformable flag, resolve the
middle kernel sizes (whose length must equal the block count, line 359 - this
assert is well-formed and does fire), resolve stride and dilation, and build
the blocks via `_make_stage`. -/
def buildOneStage (cfg : Config) (norm_func : NormKind) (strides : Option (List Nat))
    (spec : StageSpec) (stage_idx : Nat) (in_channels : Nat) :
    Except PyError StageModule :=
  let name := "layer" ++ toString spec.index
  let stage2_relative_factor := 2 ^ (spec.index - 1)
  let bottleneck_channels := cfg.num_groups * cfg.width_per_group * stage2_relative_factor
  let out_channels := cfg.res2_out_channels * stage2_relative_factor
  match cfg.stage_with_dcn[spec.index - 1]? with
  | none => Except.error PyError.indexError
  | some dcnFlag =>
    match stageMiddleKs cfg spec stage_idx with
    | Except.error e => Except.error e
    | Except.ok middle_ks =>
      if middle_ks.length = spec.block_count then
        let use_unfixed_bn :=
          cfg.dont_load.contains name && (cfg.trans_func == "BottleneckWithFixedBatchNorm")
        match stageStrideDilation cfg strides spec stage_idx with
        | Except.error e => Except.error e
        | Except.ok (first_stride, dilation) =>
          match _make_stage norm_func in_channels bottleneck_channels out_channels
              spec.block_count cfg.num_groups cfg.stride_in_1x1 first_stride dilation
              ⟨dcnFlag, cfg.with_modulated_dcn, cfg.deformable_groups⟩
              middle_ks use_unfixed_bn with
          | Except.error e => Except.error e
          | Except.ok blocks =>
            Except.ok { index := spec.index
                        name := name
                        return_features := spec.return_features
                        out_channels := out_channels
                        blocks := blocks
                        params := List.replicate blocks.length true }
      else Except.error PyError.assertionError

/-- The stage-construction loop of `ResNet.__init__` (resnet.py lines
348-394): stages are built in stage-spec order, with `in_channels` chained
forward from the previous stage's `out_channels` (line 391). -/
def buildStages (cfg : Config) (norm_func : NormKind) (strides : Option (List Nat)) :
    List StageSpec → Nat → Nat → Except PyError (List StageModule)
  | [], _, _ => Except.ok []
  | spec :: rest, stage_idx, in_channels =>
    match buildOneStage cfg norm_func strides spec stage_idx in_channels with
    | Except.error e => Except.error e
    | Except.ok s =>
      match buildStages cfg norm_func strides rest (stage_idx + 1) s.out_channels with
      | Except.error e => Except.error e
      | Except.ok l => Except.ok (s :: l)

/-- Construction-time state of a `ResNet` backbone body.  `stemParams` is the
stem's single trainability flag group (all stem parameters are only ever
frozen together, resnet.py lines 403-408). -/
structure ResNetModel where
  stem : StemModule
  stemParams : List Bool
  stages : List StageModule
deriving DecidableEq, Repr, Inhabited

/-- The anchor-stride schedule (resnet.py lines 321-334): consulted only when
no pyramid network is in use and `RESREG == 0`; an unknown anchor stride
prints a diagnostic and calls `exit()`, modelled as a fatal `exitError`. -/
def strideSchedule (cfg : Config) : Except PyError (Option (List Nat)) :=
  if cfg.use_fpn = false ∧ cfg.resreg = 0 then
    if cfg.anchor_stride0 = 4 then Except.ok (some [1, 1, 1])
    else if cfg.anchor_stride0 = 8 then Except.ok (some [1, 1, 2])
    else if cfg.anchor_stride0 = 16 then Except.ok (some [1, 2, 2])
    else if cfg.anchor_stride0 = 32 then Except.ok (some [2, 2, 2])
    else Except.error PyError.exitError
  else Except.ok none

/-- Freeze the parameters of one stage (resnet.py lines 407-408). -/
def freezeStage (s : StageModule) : StageModule :=
  { s with params := s.params.map (fun _ => false) }

/-- One iteration of `_freeze_backbone` (resnet.py lines 402-408): stage
index 0 is the stem; any other index is looked up as the module `layer{k}`
(a missing attribute raises `AttributeError`).  The source looks the module
up by the name `"layer" + str(k)`; since that name is determined by the
stage index, the embedding matches on the index directly. -/
def freezeOne (m : ResNetModel) (k : Nat) : Except PyError ResNetModel :=
  if k = 0 then
    Except.ok { m with stemParams := m.stemParams.map (fun _ => false) }
  else if m.stages.any (fun s => s.index == k) then
    Except.ok { m with stages := m.stages.map (fun s => if s.index = k then freezeStage s else s) }
  else Except.error PyError.attributeError

/-- The `for stage_index in range(freeze_at)` loop of `_freeze_backbone`
(resnet.py lines 402-408), iterating `k = 0, 1, ..., n-1`. -/
def freezeLoop (m : ResNetModel) : Nat → Except PyError ResNetModel
  | 0 => Except.ok m
  | n + 1 =>
    match freezeLoop m n with
    | Except.error e => Except.error e
    | Except.ok m' => freezeOne m' n

/-- ResNet._freeze_backbone (resnet.py lines 399-408): a negative
`freeze_at` returns immediately and freezes nothing. -/
def ResNetModel.freezeBackbone (m : ResNetModel) (freeze_at : Int) :
    Except PyError ResNetModel :=
  if freeze_at < 0 then Except.ok m
  else freezeLoop m freeze_at.toNat

/-- ResNet.__init__ (resnet.py lines 306-397): registry lookups, stem
construction, anchor-stride schedule, stage loop, and final freezing.
The dilation-length check at line 338 is `assert(cond, msg)`: it asserts a
two-element tuple, which is always truthy in Python, so no length check
actually happens and nothing is modelled for it. -/
def ResNet.make (cfg : Config) : Except PyError ResNetModel :=
  match _STEM_MODULES cfg.stem_func with
  | none => Except.error PyError.keyError
  | some stemNorm =>
    match _STAGE_SPECS cfg.conv_body with
    | none => Except.error PyError.keyError
    | some stage_specs =>
      match _TRANSFORMATION_MODULES cfg.trans_func with
      | none => Except.error PyError.keyError
      | some transNorm =>
        let stem := BaseStem.make cfg stemNorm
        match strideSchedule cfg with
        | Except.error e => Except.error e
        | Except.ok strides =>
          match buildStages cfg transNorm strides stage_specs 0 cfg.stem_out_channels with
          | Except.error e => Except.error e
          | Except.ok stages =>
            ResNetModel.freezeBackbone
              { stem := stem, stemParams := [true], stages := stages } cfg.freeze_at

/-- Evaluate one stage: `nn.Sequential` of its blocks (resnet.py line 520). -/
def StageModule.applyOps {T : Type} (ops : TensorOps T) (s : StageModule) (x : T) : T :=
  s.blocks.foldl (fun a b => Bottleneck.forward b ops a) x

/-- The stage traversal of `ResNet.forward` (resnet.py lines 415-419): apply
each stage in list order, appending the output to the result exactly when the
stage's `return_features` flag is set. -/
def forwardStages {T : Type} (ops : TensorOps T) : List StageModule → T → List T
  | [], _ => []
  | s :: rest, x =>
    let x' := StageModule.applyOps ops s x
    let out := forwardStages ops rest x'
    if s.return_features then x' :: out else out

/-- ResNet.forward (resnet.py lines 410-420): run the stem, then the stages. -/
def ResNetModel.forward {T : Type} (m : ResNetModel) (ops : TensorOps T) (x : T) : List T :=
  forwardStages ops m.stages (StemModule.applyOps ops m.stem x)

/-- All per-stage outputs of a stage list, each paired with its stage; used
as the specification-side trace against which `forward` is compared. -/
def stageTrace {T : Type} (ops : TensorOps T) : List StageModule → T → List (StageModule × T)
  | [], _ => []
  | s :: rest, x =>
    let x' := StageModule.applyOps ops s x
    (s, x') :: stageTrace ops rest x'

/-- Channel-regularization adapter selected by `cfg.MODEL.BACKBONE.RESREG`
(backbone.py lines 26-42).  The adapter classes live in `resreg.py`, which is
not among the sources; only which adapter is selected matters here. -/
inductive ResRegKind where
  | up4
  | up2
  | down2
  | keep1
deriving DecidableEq, Repr, Inhabited

/-- The model returned by `build_resnet_backbone`: the ResNet body, the
optional resreg adapter, and the `out_channels` attribute set on the
sequential container (backbone.py line 43). -/
structure BackboneModel where
  body : ResNetModel
  resreg : Option ResRegKind
  out_channels : Nat
deriving DecidableEq, Repr, Inhabited

/-- build_resnet_backbone (backbone.py lines 24-44): build the ResNet body,
dispatch on the RESREG value (an unknown value prints and calls `exit()`),
then set `model.out_channels = cfg.MODEL.RESNETS.BACKBONE_OUT_CHANNELS`. -/
def build_resnet_backbone (cfg : Config) : Except PyError BackboneModel :=
  match ResNet.make cfg with
  | Except.error e => Except.error e
  | Except.ok body =>
    match (if cfg.resreg = 4 then Except.ok (some ResRegKind.up4)
           else if cfg.resreg = 2 then Except.ok (some ResRegKind.up2)
           else if cfg.resreg = -2 then Except.ok (some ResRegKind.down2)
           else if cfg.resreg = 1 then Except.ok (some ResRegKind.keep1)
           else if cfg.resreg = 0 then Except.ok (none : Option ResRegKind)
           else Except.error PyError.exitError) with
    | Except.error e => Except.error e
    | Except.ok rr =>
      Except.ok { body := body, resreg := rr, out_channels := cfg.backbone_out_channels }

/-- Top-level names bound in the module `resnet.py`: imports (lines 19-29)
and the module-level definitions.  The classes `ResNet_Stem` and
`ResNet_Stage` (lines 108-198) are commented out, and no name `DDPPStem` is
ever defined, so none of them appear here. -/
def resnetModuleGlobals : List String :=
  ["namedtuple", "torch", "F", "nn", "FrozenBatchNorm2d", "Conv2d", "DFConv2d",
   "group_norm", "Registry", "StageSpec",
   "ResNet50StagesTo5", "ResNet50StagesTo4", "ResNet101StagesTo5", "ResNet101StagesTo4",
   "ResNet50FPNStagesTo5", "ResNet101FPNStagesTo5", "ResNet152FPNStagesTo5",
   "ResNet50_3_4_2", "ResNet50_3_4_8", "ResNet50_3_4_14", "ResNet50_3_4_20",
   "DDPP_Stem", "DDPP_Stage", "ResNet", "ResNetHead", "_make_stage", "Bottleneck",
   "BaseStem", "BottleneckWithFixedBatchNorm", "StemWithFixedBatchNorm",
   "BottleneckWithGN", "StemWithGN",
   "_TRANSFORMATION_MODULES", "_STEM_MODULES", "_STAGE_SPECS"]

/-- Python global-name resolution in `resnet.py`: referring to a name that is
not bound at module level raises `NameError`. -/
def resolveGlobal (n : String) : Except PyError Unit :=
  if n ∈ resnetModuleGlobals then Except.ok () else Except.error PyError.nameError

/-- Construction-time state `DDPP_Stem` would hold if its constructor could
complete (resnet.py lines 211-220). -/
structure DDPPStemModule where
  out_channels : Nat
  conv1 : ConvSpec
deriving DecidableEq, Repr, Inhabited

/-- DDPP_Stem.__init__ (resnet.py lines 208-220): its first statement is
`super(DDPPStem, self).__init__()`, which evaluates the undefined global name
`DDPPStem`; the rest of the body (3x3 stride-2 pad-1 convolution plus group
norm) is only reached if that lookup succeeds. -/
def DDPP_Stem.construct (cfg : Config) : Except PyError DDPPStemModule :=
  match resolveGlobal "DDPPStem" with
  | Except.error e => Except.error e
  | Except.ok _ =>
    let out_channels := cfg.stem_out_channels
    Except.ok { out_channels := out_channels
                conv1 := ⟨3, out_channels, 3, 2, 1, 1, 1⟩ }

/-- Construction-time state `DDPP_Stage` would hold if its constructor could
complete (resnet.py lines 231-288). -/
structure DDPPStageModule where
  out_channels : Nat
  branches : List (List Bottleneck)
  params : List Bool
deriving DecidableEq, Repr, Inhabited

/-- Branch loop of `DDPP_Stage.__init__` (resnet.py lines 265-285): one
`_make_stage` call per `(first_stride, dilation)` pair of the EWAdaptive
branch specification (called without `middle_ks` and `use_unfixed_bn`, so
their defaults apply). -/
def ddppBranches (norm_func : NormKind) (in_channels bottleneck_channels out_channels
    block_count num_groups : Nat) (stride_in_1x1 : Bool) (dcn_config : DCNConfig) :
    List (Nat × Nat) → Except PyError (List (List Bottleneck))
  | [] => Except.ok []
  | p :: rest =>
    match _make_stage norm_func in_channels bottleneck_channels out_channels block_count
        num_groups stride_in_1x1 p.1 p.2 dcn_config [] false with
    | Except.error e => Except.error e
    | Except.ok b =>
      match ddppBranches norm_func in_channels bottleneck_channels out_channels
          block_count num_groups stride_in_1x1 dcn_config rest with
      | Except.error e => Except.error e
      | Except.ok bs => Except.ok (b :: bs)

/-- DDPP_Stage.__init__ (resnet.py lines 231-288): its first statement is
`super(ResNet_Stage, self).__init__()`, which evaluates the global name
`ResNet_Stage` - a name whose definition is commented out in the module.
The remainder (which this embedding still spells out, although it is dead
code after the failing lookup) mirrors lines 238-288: the stage-bounds check
at line 238 asserts a tuple and so checks nothing; `ewa_spec` is only bound
for stages 2-4, so any other stage value would hit an unbound local, also a
`NameError`. -/
def DDPP_Stage.construct (cfg : Config) (stage : Nat) (in_channels : Nat) :
    Except PyError DDPPStageModule :=
  match resolveGlobal "ResNet_Stage" with
  | Except.error e => Except.error e
  | Except.ok _ =>
    match _STAGE_SPECS cfg.conv_body with
    | none => Except.error PyError.keyError
    | some stage_specs =>
      match _TRANSFORMATION_MODULES cfg.trans_func with
      | none => Except.error PyError.keyError
      | some transNorm =>
        match stage_specs[stage - 2]? with
        | none => Except.error PyError.indexError
        | some stage_spec =>
          let stage2_relative_factor := 2 ^ (stage_spec.index - 1)
          let bottleneck_channels :=
            cfg.num_groups * cfg.width_per_group * stage2_relative_factor
          let out_channels := cfg.res2_out_channels * stage2_relative_factor
          match cfg.stage_with_dcn[stage_spec.index - 1]? with
          | none => Except.error PyError.indexError
          | some dcnFlag =>
            match (if stage = 2 then Except.ok cfg.ewadaptive_c2
                   else if stage = 3 then Except.ok cfg.ewadaptive_c3
                   else if stage = 4 then Except.ok cfg.ewadaptive_c4
                   else Except.error PyError.nameError) with
            | Except.error e => Except.error e
            | Except.ok ewa_spec =>
              match ddppBranches transNorm in_channels bottleneck_channels out_channels
                  stage_spec.block_count cfg.num_groups cfg.stride_in_1x1
                  ⟨dcnFlag, cfg.with_modulated_dcn, cfg.deformable_groups⟩ ewa_spec with
              | Except.error e => Except.error e
              | Except.ok branches =>
                let params := List.replicate branches.length true
                Except.ok { out_channels := out_channels
                            branches := branches
                            params := if (stage : Int) ≤ cfg.freeze_at then
                                        params.map (fun _ => false)
                                      else params }

/-- A representative R-50-C4 configuration (no pyramid network, no resreg
adapter, anchor stride 16) whose `BACKBONE_OUT_CHANNELS` is 256, not the
final stage's 256 * 2^2 = 1024 channel count. -/
def cfgC1 : Config :=
  { conv_body := "R-50-C4"
    stem_func := "StemWithFixedBatchNorm"
    trans_func := "BottleneckWithFixedBatchNorm"
    use_fpn := false
    resreg := 0
    anchor_stride0 := 16
    dilations := [1, 1, 1]
    num_groups := 1
    width_per_group := 64
    stem_out_channels := 64
    res2_out_channels := 256
    stride_in_1x1 := true
    stage_with_dcn := [false, false, false, false]
    with_modulated_dcn := false
    deformable_groups := 1
    middle_kernel_sizes := []
    dont_load := []
    freeze_at := 2
    backbone_out_channels := 256
    ewadaptive_c2 := []
    ewadaptive_c3 := []
    ewadaptive_c4 := [] }

/-- The backbone built from `cfgC1`. -/
def backboneC1 : BackboneModel := ((build_resnet_backbone cfgC1).toOption).getD default

/-- An R-50-C4 configuration with `freeze_at = 2`. -/
def cfgC2 : Config := { cfgC1 with backbone_out_channels := 1024 }

/-- The ResNet body built from `cfgC2`. -/
def modelC2 : ResNetModel := ((ResNet.make cfgC2).toOption).getD default

/-- A table-mode configuration (no pyramid network, RESREG 0, anchor 8). -/
def cfgC3a : Config := { cfgC2 with anchor_stride0 := 8 }

/-- The ResNet body built from `cfgC3a`. -/
def modelC3a : ResNetModel := ((ResNet.make cfgC3a).toOption).getD default

/-- A pyramid-network configuration (R-50-FPN). -/
def cfgC3b : Config :=
  { cfgC2 with conv_body := "R-50-FPN", use_fpn := true, anchor_stride0 := 7,
               backbone_out_channels := 256 }

/-- The ResNet body built from `cfgC3b`. -/
def modelC3b : ResNetModel := ((ResNet.make cfgC3b).toOption).getD default

/-- A table-mode configuration with an invalid anchor stride (7). -/
def cfgC3bad : Config := { cfgC2 with anchor_stride0 := 7 }

/-- An R-50-C4 configuration whose dilation list is empty (length 0, not 3)
and which uses a pyramid network, so the dilation list is never indexed. -/
def cfgC4 : Config :=
  { cfgC1 with use_fpn := true, dilations := [], freeze_at := -1,
               backbone_out_channels := 1024 }

/-- A configuration carrying an explicit per-stage middle-kernel-size list
whose first stage's list has the right length (3 blocks in stage 1 of
R-50-C4). -/
def cfgC6 : Config :=
  { cfgC4 with middle_kernel_sizes := [[3, 1, 3], [3, 3, 3, 3], [3, 3, 3, 3, 3, 3]] }

/-- Like `cfgC6` but the first stage's kernel-size list has length 2 while
stage 1 of R-50-C4 has 3 blocks. -/
def cfgC6bad : Config :=
  { cfgC4 with middle_kernel_sizes := [[3, 1], [3, 3, 3, 3], [3, 3, 3, 3, 3, 3]] }

/-- Configuration for the forward-pass witness (R-50-C4, only stage 3
exported). -/
def cfgC9 : Config := { cfgC4 with freeze_at := 0 }

/-- The ResNet body built from `cfgC9`. -/
def modelC9 : ResNetModel := ((ResNet.make cfgC9).toOption).getD default

/-- Concrete tensor operations over natural numbers, used to instantiate the
symbolic forward pass in witnesses. -/
def natOps : TensorOps Nat :=
  { conv := fun c x => x + c.kernel_size
    dfconv := fun c x => x + c.kernel_size
    norm := fun _ x => x + 1
    relu := fun x => x
    add := fun a b => a + b
    maxPool := fun _ _ _ x => x }

theorem Bottleneck.make_spatialDilation (inC bC outC g : Nat) (s11 : Bool)
    (st dil : Nat) (nf : NormKind) (dcn : DCNConfig) (mk : Nat) (ubn : Bool) :
    (Bottleneck.make inC bC outC g s11 st dil nf dcn mk ubn).spatialDilation = dil := by
  unfold Bottleneck.make Bottleneck.spatialDilation
  by_cases h : dcn.stage_with_dcn = true <;> simp [h]

theorem Bottleneck.make_middleKernel (inC bC outC g : Nat) (s11 : Bool)
    (st dil : Nat) (nf : NormKind) (dcn : DCNConfig) (mk : Nat) (ubn : Bool) :
    (Bottleneck.make inC bC outC g s11 st dil nf dcn mk ubn).middleKernel = mk := by
  unfold Bottleneck.make Bottleneck.middleKernel
  by_cases h : dcn.stage_with_dcn = true <;> simp [h]

theorem Bottleneck.make_spatialStride (inC bC outC g : Nat) (s11 : Bool)
    (st dil : Nat) (nf : NormKind) (dcn : DCNConfig) (mk : Nat) (ubn : Bool) :
    (Bottleneck.make inC bC outC g s11 st dil nf dcn mk ubn).spatialStride =
      (if s11 then 1 else st) := by
  unfold Bottleneck.make Bottleneck.spatialStride
  by_cases h : dcn.stage_with_dcn = true <;> simp [h]

theorem Bottleneck.make_conv1_stride (inC bC outC g : Nat) (s11 : Bool)
    (st dil : Nat) (nf : NormKind) (dcn : DCNConfig) (mk : Nat) (ubn : Bool) :
    (Bottleneck.make inC bC outC g s11 st dil nf dcn mk ubn).conv1.stride =
      (if s11 then st else 1) := by
  unfold Bottleneck.make
  simp

theorem Bottleneck.make_totalStride (inC bC outC g : Nat) (s11 : Bool)
    (st dil : Nat) (nf : NormKind) (dcn : DCNConfig) (mk : Nat) (ubn : Bool) :
    (Bottleneck.make inC bC outC g s11 st dil nf dcn mk ubn).totalStride = st := by
  unfold Bottleneck.totalStride
  rw [Bottleneck.make_conv1_stride, Bottleneck.make_spatialStride]
  by_cases h : s11 = true <;> simp [h]

theorem Bottleneck.make_conv3_out (inC bC outC g : Nat) (s11 : Bool)
    (st dil : Nat) (nf : NormKind) (dcn : DCNConfig) (mk : Nat) (ubn : Bool) :
    (Bottleneck.make inC bC outC g s11 st dil nf dcn mk ubn).conv3.out_channels = outC := by
  unfold Bottleneck.make
  simp

theorem makeStageGo_ok {nf : NormKind} {bC oC g : Nat} {s11 : Bool} {dil : Nat}
    {dcn : DCNConfig} {mks : List Nat} {ubn : Bool} :
    ∀ (r i st c : Nat) (bs : List Bottleneck),
      makeStageGo nf bC oC g s11 dil dcn mks ubn i r st c = Except.ok bs →
      bs.length = r ∧
      ∀ j b, bs[j]? = some b → ∃ mk, mks[i + j]? = some mk ∧
        b = Bottleneck.make (if j = 0 then c else oC) bC oC g s11
              (if j = 0 then st else 1) dil nf dcn mk ubn := by
  intro r
  induction r with
  | zero =>
    intro i st c bs h
    unfold makeStageGo at h
    injection h with h
    subst h
    exact ⟨rfl, by intro j b hj; simp at hj⟩
  | succ n ih =>
    intro i st c bs h
    unfold makeStageGo at h
    cases hmk : mks[i]? with
    | none => rw [hmk] at h; exact absurd h (by simp)
    | some mk =>
      rw [hmk] at h
      cases hrec : makeStageGo nf bC oC g s11 dil dcn mks ubn (i + 1) n 1 oC with
      | error e => rw [hrec] at h; exact absurd h (by simp)
      | ok rest =>
        rw [hrec] at h
        injection h with h
        subst h
        obtain ⟨hlen, hpt⟩ := ih (i + 1) 1 oC rest hrec
        refine ⟨by simp [hlen], ?_⟩
        intro j b hj
        cases j with
        | zero =>
          simp at hj
          refine ⟨mk, by simpa using hmk, ?_⟩
          simp [hj]
        | succ j' =>
          have hj' : rest[j']? = some b := by simpa using hj
          obtain ⟨mk', hmk', hb⟩ := hpt j' b hj'
          refine ⟨mk', ?_, ?_⟩
          · have harith : i + 1 + j' = i + (j' + 1) := by omega
            rw [← harith]
            exact hmk'
          · simpa using hb

theorem makeStageGo_replicate_isOk {nf : NormKind} {bC oC g : Nat} {s11 : Bool}
    {dil : Nat} {dcn : DCNConfig} {ubn : Bool} {B : Nat} :
    ∀ (r i st c : Nat), i + r ≤ B →
      (makeStageGo nf bC oC g s11 dil dcn (List.replicate B 3) ubn i r st c).isOk = true := by
  intro r
  induction r with
  | zero =>
    intro i st c _
    unfold makeStageGo
    rfl
  | succ n ih =>
    intro i st c hle
    unfold makeStageGo
    have hi : i < B := by omega
    rw [List.getElem?_replicate, if_pos hi]
    have hrec := ih (i + 1) 1 oC (by omega)
    cases hrek : makeStageGo nf bC oC g s11 dil dcn (List.replicate B 3) ubn (i + 1) n 1 oC with
    | error e => rw [hrek] at hrec; simp [Except.isOk, Except.toBool] at hrec
    | ok rest => rfl

theorem stageStrideDilation_fpn {cfg : Config} {strides : Option (List Nat)}
    {spec : StageSpec} {idx : Nat} (h : cfg.use_fpn = true ∨ cfg.resreg ≠ 0) :
    stageStrideDilation cfg strides spec idx =
      Except.ok ((if 1 < spec.index then 2 else 1), 1) := by
  unfold stageStrideDilation
  rw [if_pos h]

theorem stageStrideDilation_table {cfg : Config} {strides : Option (List Nat)}
    {spec : StageSpec} {idx fs d : Nat}
    (hmode : ¬(cfg.use_fpn = true ∨ cfg.resreg ≠ 0))
    (h : stageStrideDilation cfg strides spec idx = Except.ok (fs, d)) :
    ∃ ss, strides = some ss ∧ ss[idx]? = some fs ∧ cfg.dilations[idx]? = some d := by
  unfold stageStrideDilation at h
  rw [if_neg hmode] at h
  cases strides with
  | none => exact absurd h (by simp)
  | some ss =>
    dsimp only at h
    cases hs : ss[idx]? with
    | none => rw [hs] at h; exact absurd h (by simp)
    | some fs' =>
      rw [hs] at h
      dsimp only at h
      cases hd : cfg.dilations[idx]? with
      | none => rw [hd] at h; exact absurd h (by simp)
      | some d' =>
        rw [hd] at h
        dsimp only at h
        injection h with h
        rw [Prod.mk.injEq] at h
        obtain ⟨rfl, rfl⟩ := h
        exact ⟨ss, rfl, hs, rfl⟩

theorem buildOneStage_ok {cfg : Config} {nf : NormKind} {strides : Option (List Nat)}
    {spec : StageSpec} {idx inC : Nat} {s : StageModule}
    (h : buildOneStage cfg nf strides spec idx inC = Except.ok s) :
    s.index = spec.index ∧ s.name = "layer" ++ toString spec.index ∧
    s.return_features = spec.return_features ∧
    s.out_channels = cfg.res2_out_channels * 2 ^ (spec.index - 1) ∧
    s.params = List.replicate s.blocks.length true ∧
    ∃ fs dil mks dflag,
      cfg.stage_with_dcn[spec.index - 1]? = some dflag ∧
      stageMiddleKs cfg spec idx = Except.ok mks ∧
      mks.length = spec.block_count ∧
      stageStrideDilation cfg strides spec idx = Except.ok (fs, dil) ∧
      _make_stage nf inC (cfg.num_groups * cfg.width_per_group * 2 ^ (spec.index - 1))
        (cfg.res2_out_channels * 2 ^ (spec.index - 1)) spec.block_count cfg.num_groups
        cfg.stride_in_1x1 fs dil ⟨dflag, cfg.with_modulated_dcn, cfg.deformable_groups⟩
        mks (cfg.dont_load.contains ("layer" ++ toString spec.index) &&
             (cfg.trans_func == "BottleneckWithFixedBatchNorm")) = Except.ok s.blocks := by
  unfold buildOneStage at h
  cases hdcn : cfg.stage_with_dcn[spec.index - 1]? with
  | none => rw [hdcn] at h; exact absurd h (by simp)
  | some dflag =>
    rw [hdcn] at h
    dsimp only at h
    cases hmks : stageMiddleKs cfg spec idx with
    | error e => rw [hmks] at h; exact absurd h (by simp)
    | ok mks =>
      rw [hmks] at h
      dsimp only at h
      by_cases hlen : mks.length = spec.block_count
      · rw [if_pos hlen] at h
        cases hsd : stageStrideDilation cfg strides spec idx with
        | error e => rw [hsd] at h; exact absurd h (by simp)
        | ok p =>
          obtain ⟨fs, dil⟩ := p
          rw [hsd] at h
          dsimp only at h
          cases hms : _make_stage nf inC
              (cfg.num_groups * cfg.width_per_group * 2 ^ (spec.index - 1))
              (cfg.res2_out_channels * 2 ^ (spec.index - 1)) spec.block_count cfg.num_groups
              cfg.stride_in_1x1 fs dil ⟨dflag, cfg.with_modulated_dcn, cfg.deformable_groups⟩
              mks (cfg.dont_load.contains ("layer" ++ toString spec.index) &&
                   (cfg.trans_func == "BottleneckWithFixedBatchNorm")) with
          | error e => rw [hms] at h; exact absurd h (by simp)
          | ok blocks =>
            rw [hms] at h
            dsimp only at h
            injection h with h
            subst h
            exact ⟨rfl, rfl, rfl, rfl, rfl, fs, dil, mks, dflag, rfl, rfl, hlen, rfl, hms⟩
      · rw [if_neg hlen] at h
        exact absurd h (by simp)

theorem buildStages_ok {cfg : Config} {nf : NormKind} {strides : Option (List Nat)} :
    ∀ (specs : List StageSpec) (idx inC : Nat) (l : List StageModule),
      buildStages cfg nf strides specs idx inC = Except.ok l →
      l.length = specs.length ∧
      ∀ j spec s, specs[j]? = some spec → l[j]? = some s →
        ∃ c, buildOneStage cfg nf strides spec (idx + j) c = Except.ok s := by
  intro specs
  induction specs with
  | nil =>
    intro idx inC l h
    unfold buildStages at h
    injection h with h
    subst h
    exact ⟨rfl, by intro j spec s hs _; simp at hs⟩
  | cons spec rest ih =>
    intro idx inC l h
    unfold buildStages at h
    cases h1 : buildOneStage cfg nf strides spec idx inC with
    | error e => rw [h1] at h; exact absurd h (by simp)
    | ok s0 =>
      rw [h1] at h
      dsimp only at h
      cases h2 : buildStages cfg nf strides rest (idx + 1) s0.out_channels with
      | error e => rw [h2] at h; exact absurd h (by simp)
      | ok l' =>
        rw [h2] at h
        dsimp only at h
        injection h with h
        subst h
        obtain ⟨hlen, hpt⟩ := ih (idx + 1) s0.out_channels l' h2
        refine ⟨by simp [hlen], ?_⟩
        intro j spec' s hs hl
        cases j with
        | zero =>
          simp at hs hl
          subst hs
          subst hl
          exact ⟨inC, by simpa using h1⟩
        | succ j' =>
          have hs' : rest[j']? = some spec' := by simpa using hs
          have hl' : l'[j']? = some s := by simpa using hl
          obtain ⟨c, hc⟩ := hpt j' spec' s hs' hl'
          refine ⟨c, ?_⟩
          have harith : idx + 1 + j' = idx + (j' + 1) := by omega
          rw [← harith]
          exact hc

theorem buildStages_indices {cfg : Config} {nf : NormKind} {strides : Option (List Nat)} :
    ∀ (specs : List StageSpec) (idx inC : Nat) (l : List StageModule),
      buildStages cfg nf strides specs idx inC = Except.ok l →
      l.map (fun s => s.index) = specs.map (fun sp => sp.index) := by
  intro specs
  induction specs with
  | nil =>
    intro idx inC l h
    unfold buildStages at h
    injection h with h
    subst h
    rfl
  | cons spec rest ih =>
    intro idx inC l h
    unfold buildStages at h
    cases h1 : buildOneStage cfg nf strides spec idx inC with
    | error e => rw [h1] at h; exact absurd h (by simp)
    | ok s0 =>
      rw [h1] at h
      dsimp only at h
      cases h2 : buildStages cfg nf strides rest (idx + 1) s0.out_channels with
      | error e => rw [h2] at h; exact absurd h (by simp)
      | ok l' =>
        rw [h2] at h
        dsimp only at h
        injection h with h
        subst h
        have hidx := (buildOneStage_ok h1).1
        simp [hidx, ih (idx + 1) s0.out_channels l' h2]

theorem stageSpecs_indices {n : String} {specs : List StageSpec}
    (h : _STAGE_SPECS n = some specs) :
    specs.map (fun s => s.index) = [1, 2, 3] ∨
    specs.map (fun s => s.index) = [1, 2, 3, 4] := by
  unfold _STAGE_SPECS at h
  by_cases h1 : n = "R-50-C4"
  · rw [if_pos h1] at h; injection h with h; subst h; decide
  rw [if_neg h1] at h
  by_cases h2 : n = "R-50-C5"
  · rw [if_pos h2] at h; injection h with h; subst h; decide
  rw [if_neg h2] at h
  by_cases h3 : n = "R-101-C4"
  · rw [if_pos h3] at h; injection h with h; subst h; decide
  rw [if_neg h3] at h
  by_cases h4 : n = "R-101-C5"
  · rw [if_pos h4] at h; injection h with h; subst h; decide
  rw [if_neg h4] at h
  by_cases h5 : n = "R-50-FPN"
  · rw [if_pos h5] at h; injection h with h; subst h; decide
  rw [if_neg h5] at h
  by_cases h6 : n = "R-50-FPN-RETINANET"
  · rw [if_pos h6] at h; injection h with h; subst h; decide
  rw [if_neg h6] at h
  by_cases h7 : n = "R-101-FPN"
  · rw [if_pos h7] at h; injection h with h; subst h; decide
  rw [if_neg h7] at h
  by_cases h8 : n = "R-101-FPN-RETINANET"
  · rw [if_pos h8] at h; injection h with h; subst h; decide
  rw [if_neg h8] at h
  by_cases h9 : n = "R-152-FPN"
  · rw [if_pos h9] at h; injection h with h; subst h; decide
  rw [if_neg h9] at h
  by_cases h10 : n = "R-50-3_4_2"
  · rw [if_pos h10] at h; injection h with h; subst h; decide
  rw [if_neg h10] at h
  by_cases h11 : n = "R-50-3_4_8"
  · rw [if_pos h11] at h; injection h with h; subst h; decide
  rw [if_neg h11] at h
  by_cases h12 : n = "R-50-3_4_14"
  · rw [if_pos h12] at h; injection h with h; subst h; decide
  rw [if_neg h12] at h
  by_cases h13 : n = "R-50-3_4_20"
  · rw [if_pos h13] at h; injection h with h; subst h; decide
  rw [if_neg h13] at h
  exact Option.noConfusion h

theorem stageSpecs_index_pos {n : String} {specs : List StageSpec}
    (h : _STAGE_SPECS n = some specs) : ∀ sp ∈ specs, 1 ≤ sp.index := by
  intro sp hm
  have hmap : sp.index ∈ specs.map (fun s => s.index) := List.mem_map_of_mem _ hm
  rcases stageSpecs_indices h with h' | h' <;> rw [h'] at hmap <;> simp at hmap <;> omega

theorem map_freeze_le_one (l : List StageModule) (n : Nat) (hn : n ≤ 1) :
    l.map (fun s => if 1 ≤ s.index ∧ s.index < n then freezeStage s else s) = l := by
  have h3 : ∀ s ∈ l, (if 1 ≤ s.index ∧ s.index < n then freezeStage s else s) = id s := by
    intro s _
    rw [if_neg]
    · rfl
    · omega
  rw [List.map_congr_left h3, List.map_id]

theorem freezeLoop_ok :
    ∀ (n : Nat) (m0 m : ResNetModel), freezeLoop m0 n = Except.ok m →
      m.stem = m0.stem ∧
      m.stemParams = (if n = 0 then m0.stemParams
                      else m0.stemParams.map (fun _ => false)) ∧
      m.stages = m0.stages.map
        (fun s => if 1 ≤ s.index ∧ s.index < n then freezeStage s else s) := by
  intro n
  induction n with
  | zero =>
    intro m0 m h
    unfold freezeLoop at h
    injection h with h
    subst h
    exact ⟨rfl, by simp, (map_freeze_le_one m0.stages 0 (by omega)).symm⟩
  | succ n ih =>
    intro m0 m h
    unfold freezeLoop at h
    cases h1 : freezeLoop m0 n with
    | error e => rw [h1] at h; exact absurd h (by simp)
    | ok m' =>
      rw [h1] at h
      dsimp only at h
      obtain ⟨hstem, hsp, hst⟩ := ih m0 m' h1
      unfold freezeOne at h
      by_cases hn : n = 0
      · subst hn
        rw [if_pos rfl] at h
        injection h with h
        subst h
        refine ⟨hstem, ?_, ?_⟩
        · rw [hsp]
          simp
        · show m'.stages = _
          rw [hst, map_freeze_le_one m0.stages 0 (by omega),
            map_freeze_le_one m0.stages 1 (by omega)]
      · rw [if_neg hn] at h
        by_cases hany : (m'.stages.any (fun s => s.index == n)) = true
        · rw [if_pos hany] at h
          injection h with h
          subst h
          refine ⟨hstem, ?_, ?_⟩
          · show m'.stemParams = _
            rw [hsp, if_neg hn, if_neg (by omega)]
          · show m'.stages.map (fun s => if s.index = n then freezeStage s else s) = _
            have hpoint : ∀ s : StageModule,
                (if (if 1 ≤ s.index ∧ s.index < n then freezeStage s else s).index = n
                 then freezeStage (if 1 ≤ s.index ∧ s.index < n then freezeStage s else s)
                 else (if 1 ≤ s.index ∧ s.index < n then freezeStage s else s)) =
                (if 1 ≤ s.index ∧ s.index < n + 1 then freezeStage s else s) := by
              intro s
              by_cases h1 : 1 ≤ s.index ∧ s.index < n
              · rw [if_pos h1]
                have hidx : (freezeStage s).index = s.index := rfl
                rw [hidx, if_neg (by omega), if_pos (by omega)]
              · rw [if_neg h1]
                by_cases h2 : s.index = n
                · rw [if_pos h2, if_pos (by omega)]
                · rw [if_neg h2, if_neg (by omega)]
            rw [hst, List.map_map]
            exact List.map_congr_left (fun s _ => hpoint s)
        · rw [if_neg hany] at h
          exact absurd h (by simp)

theorem freezeBackbone_neg {m0 m : ResNetModel} {f : Int} (hf : f < 0)
    (h : ResNetModel.freezeBackbone m0 f = Except.ok m) : m = m0 := by
  unfold ResNetModel.freezeBackbone at h
  rw [if_pos hf] at h
  injection h with h
  exact h.symm

theorem freezeBackbone_nonneg {m0 m : ResNetModel} {f : Int} (hf : 0 ≤ f)
    (h : ResNetModel.freezeBackbone m0 f = Except.ok m) :
    m.stem = m0.stem ∧
    m.stemParams = (if f.toNat = 0 then m0.stemParams
                    else m0.stemParams.map (fun _ => false)) ∧
    m.stages = m0.stages.map
      (fun s => if 1 ≤ s.index ∧ s.index < f.toNat then freezeStage s else s) := by
  unfold ResNetModel.freezeBackbone at h
  rw [if_neg (by omega)] at h
  exact freezeLoop_ok f.toNat m0 m h

theorem ResNet.make_ok {cfg : Config} {m : ResNetModel}
    (h : ResNet.make cfg = Except.ok m) :
    ∃ stemNorm specs transNorm strides stages0,
      _STEM_MODULES cfg.stem_func = some stemNorm ∧
      _STAGE_SPECS cfg.conv_body = some specs ∧
      _TRANSFORMATION_MODULES cfg.trans_func = some transNorm ∧
      strideSchedule cfg = Except.ok strides ∧
      buildStages cfg transNorm strides specs 0 cfg.stem_out_channels = Except.ok stages0 ∧
      ResNetModel.freezeBackbone
        { stem := BaseStem.make cfg stemNorm, stemParams := [true], stages := stages0 }
        cfg.freeze_at = Except.ok m := by
  unfold ResNet.make at h
  cases h1 : _STEM_MODULES cfg.stem_func with
  | none => rw [h1] at h; exact absurd h (by simp)
  | some stemNorm =>
    rw [h1] at h
    dsimp only at h
    cases h2 : _STAGE_SPECS cfg.conv_body with
    | none => rw [h2] at h; exact absurd h (by simp)
    | some specs =>
      rw [h2] at h
      dsimp only at h
      cases h3 : _TRANSFORMATION_MODULES cfg.trans_func with
      | none => rw [h3] at h; exact absurd h (by simp)
      | some transNorm =>
        rw [h3] at h
        dsimp only at h
        cases h4 : strideSchedule cfg with
        | error e => rw [h4] at h; exact absurd h (by simp)
        | ok strides =>
          rw [h4] at h
          dsimp only at h
          cases h5 : buildStages cfg transNorm strides specs 0 cfg.stem_out_channels with
          | error e => rw [h5] at h; exact absurd h (by simp)
          | ok stages0 =>
            rw [h5] at h
            dsimp only at h
            exact ⟨stemNorm, specs, transNorm, strides, stages0, rfl, rfl, rfl, rfl, h5, h⟩

theorem forwardStages_eq_filter {T : Type} (ops : TensorOps T) :
    ∀ (l : List StageModule) (x : T),
      forwardStages ops l x =
        ((stageTrace ops l x).filter (fun p => p.1.return_features)).map
          (fun p => p.2) := by
  intro l
  induction l with
  | nil => intro x; rfl
  | cons s rest ih =>
    intro x
    unfold forwardStages stageTrace
    by_cases hr : s.return_features = true
    · simp [List.filter_cons, hr, ih]
    · simp [List.filter_cons, hr, ih]

theorem stageTrace_fst {T : Type} (ops : TensorOps T) :
    ∀ (l : List StageModule) (x : T), (stageTrace ops l x).map (fun p => p.1) = l := by
  intro l
  induction l with
  | nil => intro x; rfl
  | cons s rest ih =>
    intro x
    unfold stageTrace
    simp [ih]

theorem makeStageGo_error {nf : NormKind} {bC oC g : Nat} {s11 : Bool} {dil : Nat}
    {dcn : DCNConfig} {mks : List Nat} {ubn : Bool} :
    ∀ (r i st c : Nat) (e : PyError),
      makeStageGo nf bC oC g s11 dil dcn mks ubn i r st c = Except.error e →
      e = PyError.indexError := by
  intro r
  induction r with
  | zero =>
    intro i st c e h
    unfold makeStageGo at h
    exact absurd h (by simp)
  | succ n ih =>
    intro i st c e h
    unfold makeStageGo at h
    cases hmk : mks[i]? with
    | none =>
      rw [hmk] at h
      injection h with h
      exact h.symm
    | some mk =>
      rw [hmk] at h
      cases hrec : makeStageGo nf bC oC g s11 dil dcn mks ubn (i + 1) n 1 oC with
      | error e' =>
        rw [hrec] at h
        injection h with h
        subst h
        exact ih (i + 1) 1 oC e' hrec
      | ok rest => rw [hrec] at h; exact absurd h (by simp)

theorem stageStrideDilation_error {cfg : Config} {strides : Option (List Nat)}
    {spec : StageSpec} {idx : Nat} {e : PyError}
    (h : stageStrideDilation cfg strides spec idx = Except.error e) :
    e = PyError.nameError ∨ e = PyError.indexError := by
  unfold stageStrideDilation at h
  by_cases hmode : cfg.use_fpn = true ∨ cfg.resreg ≠ 0
  · rw [if_pos hmode] at h; exact absurd h (by simp)
  · rw [if_neg hmode] at h
    cases strides with
    | none => injection h with h; exact Or.inl h.symm
    | some ss =>
      dsimp only at h
      cases hs : ss[idx]? with
      | none => rw [hs] at h; injection h with h; exact Or.inr h.symm
      | some fs =>
        rw [hs] at h
        dsimp only at h
        cases hd : cfg.dilations[idx]? with
        | none => rw [hd] at h; injection h with h; exact Or.inr h.symm
        | some d => rw [hd] at h; exact absurd h (by simp)

theorem make_stage_blocks {nf : NormKind} {inC bC outC B g : Nat} {s11 : Bool}
    {fs dil : Nat} {dcn : DCNConfig} {mks : List Nat} {ubn : Bool}
    {blocks : List Bottleneck}
    (h : _make_stage nf inC bC outC B g s11 fs dil dcn mks ubn = Except.ok blocks) :
    blocks.length = B ∧
    (∀ b ∈ blocks, b.spatialDilation = dil) ∧
    (∀ b0, blocks.head? = some b0 → b0.totalStride = fs) := by
  unfold _make_stage at h
  obtain ⟨hlen, hpt⟩ := makeStageGo_ok B 0 fs inC blocks h
  refine ⟨hlen, ?_, ?_⟩
  · intro b hb
    obtain ⟨j, hj⟩ := List.mem_iff_getElem?.mp hb
    obtain ⟨mk, _, hbeq⟩ := hpt j b hj
    rw [hbeq]
    exact Bottleneck.make_spatialDilation _ _ _ _ _ _ _ _ _ _ _
  · intro b0 hb0
    rw [List.head?_eq_getElem?] at hb0
    obtain ⟨mk, _, hbeq⟩ := hpt 0 b0 hb0
    rw [hbeq]
    simpa using Bottleneck.make_totalStride inC bC outC g s11 fs dil nf dcn mk ubn

theorem buildStages_mem {cfg : Config} {nf : NormKind} {strides : Option (List Nat)}
    {specs : List StageSpec} {idx inC : Nat} {l : List StageModule}
    (h : buildStages cfg nf strides specs idx inC = Except.ok l) :
    ∀ s ∈ l, ∃ spec, spec ∈ specs ∧
      ∃ c, buildOneStage cfg nf strides spec idx c = Except.ok s ∨
           ∃ j, specs[j]? = some spec ∧
             buildOneStage cfg nf strides spec (idx + j) c = Except.ok s := by
  intro s hs
  obtain ⟨j, hj⟩ := List.mem_iff_getElem?.mp hs
  obtain ⟨hlen, hpt⟩ := buildStages_ok specs idx inC l h
  have hjl : j < l.length := (List.getElem?_eq_some.mp hj).1
  have hjs : j < specs.length := by omega
  have hspec : specs[j]? = some specs[j] := List.getElem?_eq_getElem hjs
  obtain ⟨c, hc⟩ := hpt j specs[j] s hspec hj
  exact ⟨specs[j], List.getElem?_mem hspec, c, Or.inr ⟨j, hspec, hc⟩⟩

theorem freezeBackbone_core {m0 m : ResNetModel} {f : Int}
    (h : ResNetModel.freezeBackbone m0 f = Except.ok m) :
    ∀ s ∈ m.stages, ∃ s0, s0 ∈ m0.stages ∧ s.index = s0.index ∧
      s.out_channels = s0.out_channels ∧ s.return_features = s0.return_features ∧
      s.blocks = s0.blocks ∧
      (s.params = s0.params ∨ s.params = s0.params.map (fun _ => false)) := by
  by_cases hf : f < 0
  · rw [freezeBackbone_neg hf h]
    intro s hs
    exact ⟨s, hs, rfl, rfl, rfl, rfl, Or.inl rfl⟩
  · obtain ⟨_, _, hst⟩ := freezeBackbone_nonneg (by omega) h
    intro s hs
    rw [hst] at hs
    obtain ⟨s0, hs0, heq⟩ := List.mem_map.mp hs
    by_cases hc : 1 ≤ s0.index ∧ s0.index < f.toNat
    · rw [if_pos hc] at heq
      rw [← heq]
      exact ⟨s0, hs0, rfl, rfl, rfl, rfl, Or.inr rfl⟩
    · rw [if_neg hc] at heq
      rw [← heq]
      exact ⟨s0, hs0, rfl, rfl, rfl, rfl, Or.inl rfl⟩

theorem freezeBackbone_getElem {m0 m : ResNetModel} {f : Int}
    (h : ResNetModel.freezeBackbone m0 f = Except.ok m) (j : Nat) (s : StageModule)
    (hj : m.stages[j]? = some s) :
    ∃ s0, m0.stages[j]? = some s0 ∧ s.index = s0.index ∧ s.blocks = s0.blocks := by
  by_cases hf : f < 0
  · rw [freezeBackbone_neg hf h] at hj
    exact ⟨s, hj, rfl, rfl⟩
  · obtain ⟨_, _, hst⟩ := freezeBackbone_nonneg (by omega) h
    rw [hst, List.getElem?_map] at hj
    cases h0 : m0.stages[j]? with
    | none => rw [h0] at hj; exact absurd hj (by simp)
    | some s0 =>
      rw [h0] at hj
      simp only [Option.map_some'] at hj
      injection hj with hj
      by_cases hc : 1 ≤ s0.index ∧ s0.index < f.toNat
      · rw [if_pos hc] at hj
        rw [← hj]
        exact ⟨s0, rfl, rfl, rfl⟩
      · rw [if_neg hc] at hj
        rw [← hj]
        exact ⟨s0, rfl, rfl, rfl⟩

theorem freezeBackbone_pairs {m0 m : ResNetModel} {f : Int}
    (h : ResNetModel.freezeBackbone m0 f = Except.ok m) :
    m.stages.map (fun s => (s.index, s.return_features)) =
      m0.stages.map (fun s => (s.index, s.return_features)) := by
  by_cases hf : f < 0
  · rw [freezeBackbone_neg hf h]
  · obtain ⟨_, _, hst⟩ := freezeBackbone_nonneg (by omega) h
    rw [hst, List.map_map]
    refine List.map_congr_left ?_
    intro s _
    simp only [Function.comp_apply]
    by_cases hc : 1 ≤ s.index ∧ s.index < f.toNat
    · rw [if_pos hc]; rfl
    · rw [if_neg hc]

theorem buildStages_pairs {cfg : Config} {nf : NormKind} {strides : Option (List Nat)} :
    ∀ (specs : List StageSpec) (idx inC : Nat) (l : List StageModule),
      buildStages cfg nf strides specs idx inC = Except.ok l →
      l.map (fun s => (s.index, s.return_features)) =
        specs.map (fun sp => (sp.index, sp.return_features)) := by
  intro specs
  induction specs with
  | nil =>
    intro idx inC l h
    unfold buildStages at h
    injection h with h
    subst h
    rfl
  | cons spec rest ih =>
    intro idx inC l h
    unfold buildStages at h
    cases h1 : buildOneStage cfg nf strides spec idx inC with
    | error e => rw [h1] at h; exact absurd h (by simp)
    | ok s0 =>
      rw [h1] at h
      dsimp only at h
      cases h2 : buildStages cfg nf strides rest (idx + 1) s0.out_channels with
      | error e => rw [h2] at h; exact absurd h (by simp)
      | ok l' =>
        rw [h2] at h
        dsimp only at h
        injection h with h
        subst h
        obtain ⟨hidx, _, hrf, _⟩ := buildOneStage_ok h1
        simp [hidx, hrf, ih (idx + 1) s0.out_channels l' h2]

/-- Claim C5: for every `block_count = B ≥ 1`, the stage builder `_make_stage`
(with the default per-block kernel sizes) succeeds and produces exactly `B`
residual blocks in sequence; block 0 is constructed with `first_stride` and
with `in_channels` mapped to `out_channels`, every later block is constructed
with stride 1 and with `out_channels` as both its input and output channel
count; and the composed module's output channel count (the expanding 1x1
convolution of its last block) is `out_channels`. -/
theorem c5_stage_builder (nf : NormKind) (inC bC outC B g : Nat) (s11 : Bool)
    (fs dil : Nat) (dcn : DCNConfig) (ubn : Bool) (hB : 1 ≤ B) :
    (_make_stage nf inC bC outC B g s11 fs dil dcn [] ubn).isOk = true
  ∧ ∀ blocks, _make_stage nf inC bC outC B g s11 fs dil dcn [] ubn = Except.ok blocks →
      blocks.length = B
    ∧ (∀ j b, blocks[j]? = some b →
        b = Bottleneck.make (if j = 0 then inC else outC) bC outC g s11
              (if j = 0 then fs else 1) dil nf dcn 3 ubn)
    ∧ (∀ bl, blocks.getLast? = some bl → bl.conv3.out_channels = outC) := by
  constructor
  · unfold _make_stage
    exact makeStageGo_replicate_isOk B 0 fs inC (by omega)
  · intro blocks h
    unfold _make_stage at h
    obtain ⟨hlen, hpt⟩ := makeStageGo_ok B 0 fs inC blocks h
    have hmk3 : ∀ (j mk : Nat), (List.replicate B 3)[j]? = some mk → mk = 3 := by
      intro j mk hj
      rw [List.getElem?_replicate] at hj
      by_cases hjB : j < B
      · rw [if_pos hjB] at hj; injection hj with hj; exact hj.symm
      · rw [if_neg hjB] at hj; exact absurd hj (by simp)
    refine ⟨hlen, ?_, ?_⟩
    · intro j b hj
      obtain ⟨mk, hmk, hbeq⟩ := hpt j b hj
      rw [hmk3 (0 + j) mk hmk] at hbeq
      exact hbeq
    · intro bl hl
      rw [List.getLast?_eq_getElem?] at hl
      obtain ⟨mk, hmk, hbeq⟩ := hpt (blocks.length - 1) bl hl
      rw [hbeq]
      exact Bottleneck.make_conv3_out _ _ _ _ _ _ _ _ _ _ _

/-- Claim C5 witness: the stage builder evaluated at a concrete input with
two blocks. -/
theorem c5_stage_builder_witness :
    (_make_stage NormKind.frozenBN 64 64 256 2 1 true 2 1 ⟨false, false, 1⟩ [] false).isOk
      = true := by
  exact (c5_stage_builder NormKind.frozenBN 64 64 256 2 1 true 2 1
    ⟨false, false, 1⟩ false (by decide)).1

/-- Claim C7: for every residual block, the shortcut path is the identity if
and only if `in_channels = out_channels`; otherwise it is a 1x1 projection
convolution at the block's stride followed by normalization, held in the
block's `downsample` field built once at construction, and the forward pass
applies it to the block input before the element-wise addition. -/
theorem c7_shortcut_projection (inC bC outC g : Nat) (s11 : Bool) (st dil : Nat)
    (nf : NormKind) (dcn : DCNConfig) (mk : Nat) (ubn : Bool) :
    ((Bottleneck.make inC bC outC g s11 st dil nf dcn mk ubn).downsample = none
      ↔ inC = outC)
  ∧ (inC = outC → ∀ (T : Type) (ops : TensorOps T) (x : T),
      (Bottleneck.make inC bC outC g s11 st dil nf dcn mk ubn).forward ops x =
        ops.relu (ops.add
          ((Bottleneck.make inC bC outC g s11 st dil nf dcn mk ubn).mainPath ops x) x))
  ∧ (inC ≠ outC →
      (Bottleneck.make inC bC outC g s11 st dil nf dcn mk ubn).downsample =
        some (⟨inC, outC, 1, st, 0, 1, 1⟩, ⟨nf, outC⟩)
    ∧ ∀ (T : Type) (ops : TensorOps T) (x : T),
        (Bottleneck.make inC bC outC g s11 st dil nf dcn mk ubn).forward ops x =
          ops.relu (ops.add
            ((Bottleneck.make inC bC outC g s11 st dil nf dcn mk ubn).mainPath ops x)
            (ops.norm ⟨nf, outC⟩ (ops.conv ⟨inC, outC, 1, st, 0, 1, 1⟩ x)))) := by
  refine ⟨?_, ?_, ?_⟩
  · by_cases hio : inC = outC <;> simp [Bottleneck.make, hio]
  · intro hio T ops x
    unfold Bottleneck.forward
    simp [Bottleneck.make, hio]
  · intro hio
    constructor
    · simp [Bottleneck.make, hio]
    · intro T ops x
      unfold Bottleneck.forward
      simp [Bottleneck.make, hio]

/-- Claim C7 witness: concrete instantiation with unequal channel counts. -/
theorem c7_shortcut_projection_witness :
    (Bottleneck.make 64 64 256 1 true 2 1 NormKind.frozenBN ⟨false, false, 1⟩ 3
        false).downsample =
      some (⟨64, 256, 1, 2, 0, 1, 1⟩, ⟨NormKind.frozenBN, 256⟩) :=
  ((c7_shortcut_projection 64 64 256 1 true 2 1 NormKind.frozenBN ⟨false, false, 1⟩ 3
      false).2.2 (by decide)).1

/-- Claim C8: the block stride sits on the 1x1 reduce convolution exactly when
`stride_in_1x1` is set and on the spatial convolution otherwise (the other of
the two always has stride 1), and the non-deformable spatial convolution has
padding 0 when the middle kernel size is 1 and padding `dilation` otherwise. -/
theorem c8_stride_placement (inC bC outC g : Nat) (s11 : Bool) (st dil : Nat)
    (nf : NormKind) (dcn : DCNConfig) (mk : Nat) (ubn : Bool) :
    ((Bottleneck.make inC bC outC g s11 st dil nf dcn mk ubn).conv1.stride =
      (if s11 then st else 1))
  ∧ ((Bottleneck.make inC bC outC g s11 st dil nf dcn mk ubn).spatialStride =
      (if s11 then 1 else st))
  ∧ (dcn.stage_with_dcn = false →
      (Bottleneck.make inC bC outC g s11 st dil nf dcn mk ubn).conv2 =
        SpatialConv.conv
          ⟨bC, bC, mk, (if s11 then 1 else st), (if mk = 1 then 0 else dil), dil, g⟩) := by
  refine ⟨Bottleneck.make_conv1_stride _ _ _ _ _ _ _ _ _ _ _,
          Bottleneck.make_spatialStride _ _ _ _ _ _ _ _ _ _ _, ?_⟩
  intro hdcn
  simp [Bottleneck.make, hdcn]

/-- Claim C8 witness: concrete instantiation (no deformable convolution,
stride in the spatial convolution, middle kernel 3). -/
theorem c8_stride_placement_witness :
    (Bottleneck.make 256 128 512 1 false 2 2 NormKind.groupNorm ⟨false, true, 4⟩ 3
        true).conv2 =
      SpatialConv.conv ⟨128, 128, 3, 2, 2, 2, 1⟩ :=
  (c8_stride_placement 256 128 512 1 false 2 2 NormKind.groupNorm ⟨false, true, 4⟩ 3
      true).2.2 rfl

/-- Claim C10: constructing `DDPP_Stage` always raises `NameError`, because
its first statement evaluates the undefined global `ResNet_Stage`, and
constructing `DDPP_Stem` always raises `NameError` via the undefined global
`DDPPStem`; hence no instance of either class can ever exist. -/
theorem c10_ddpp_undefined_names :
    (∀ cfg : Config, DDPP_Stem.construct cfg = Except.error PyError.nameError)
  ∧ (∀ (cfg : Config) (stage in_channels : Nat),
      DDPP_Stage.construct cfg stage in_channels = Except.error PyError.nameError) := by
  constructor
  · intro cfg; rfl
  · intro cfg stage in_channels; rfl

theorem make_stage_error {nf : NormKind} {inC bC outC B g : Nat} {s11 : Bool}
    {fs dil : Nat} {dcn : DCNConfig} {mks : List Nat} {ubn : Bool} {e : PyError}
    (h : _make_stage nf inC bC outC B g s11 fs dil dcn mks ubn = Except.error e) :
    e = PyError.indexError := by
  unfold _make_stage at h
  exact makeStageGo_error B 0 fs inC e h

/-- Claim C6: when no per-block kernel-size list is configured, every block of
a built stage receives middle kernel size 3; when a kernel-size list is
configured for the stage, construction fails with the length-check assertion
exactly when the list's length differs from the stage's block count, and
otherwise block `i` receives the `i`-th listed kernel size. -/
theorem c6_middle_kernel_sizes (cfg : Config) (nf : NormKind)
    (strides : Option (List Nat)) (spec : StageSpec) (idx inC : Nat) :
    (cfg.middle_kernel_sizes = [] →
      ∀ s, buildOneStage cfg nf strides spec idx inC = Except.ok s →
        ∀ b ∈ s.blocks, b.middleKernel = 3)
  ∧ (∀ ks, cfg.middle_kernel_sizes[idx]? = some ks →
      (ks.length ≠ spec.block_count →
        ∀ dflag, cfg.stage_with_dcn[spec.index - 1]? = some dflag →
          buildOneStage cfg nf strides spec idx inC = Except.error PyError.assertionError)
    ∧ (ks.length = spec.block_count →
        buildOneStage cfg nf strides spec idx inC ≠ Except.error PyError.assertionError
      ∧ ∀ s, buildOneStage cfg nf strides spec idx inC = Except.ok s →
          ∀ (j : Nat) (b : Bottleneck), s.blocks[j]? = some b →
            ∃ mk, ks[j]? = some mk ∧ b.middleKernel = mk)) := by
  constructor
  · intro hempty s hok b hb
    obtain ⟨_, _, _, _, _, fs, dil, mks, dflag, _, hsmk, hlen, _, hms⟩ :=
      buildOneStage_ok hok
    have hmkse : mks = List.replicate spec.block_count 3 := by
      unfold stageMiddleKs at hsmk
      rw [if_pos (by simp [hempty])] at hsmk
      injection hsmk with hsmk
      exact hsmk.symm
    subst hmkse
    unfold _make_stage at hms
    rw [ite_self] at hms
    obtain ⟨_, hpt⟩ := makeStageGo_ok spec.block_count 0 fs inC s.blocks hms
    obtain ⟨j, hj⟩ := List.mem_iff_getElem?.mp hb
    obtain ⟨mk, hmk, hbeq⟩ := hpt j b hj
    rw [List.getElem?_replicate] at hmk
    by_cases hjB : 0 + j < spec.block_count
    · rw [if_pos hjB] at hmk
      injection hmk with hmk
      rw [hbeq, ← hmk]
      exact Bottleneck.make_middleKernel _ _ _ _ _ _ _ _ _ _ _
    · rw [if_neg hjB] at hmk
      exact absurd hmk (by simp)
  · intro ks hks
    have hnonempty : cfg.middle_kernel_sizes ≠ [] := by
      intro hcon
      rw [hcon] at hks
      simp at hks
    have hsmk : stageMiddleKs cfg spec idx = Except.ok ks := by
      unfold stageMiddleKs
      rw [if_neg (by simp [List.isEmpty_iff, hnonempty]), hks]
    constructor
    · intro hne dflag hdcn
      unfold buildOneStage
      rw [hdcn]
      dsimp only
      rw [hsmk]
      dsimp only
      rw [if_neg hne]
    · intro heq
      constructor
      · unfold buildOneStage
        cases hdcn : cfg.stage_with_dcn[spec.index - 1]? with
        | none =>
          dsimp only
          intro hcon
          injection hcon with hcon
          exact PyError.noConfusion hcon
        | some dflag =>
          dsimp only
          rw [hsmk]
          dsimp only
          rw [if_pos heq]
          cases hsd : stageStrideDilation cfg strides spec idx with
          | error e =>
            dsimp only
            intro hcon
            injection hcon with hcon
            rcases stageStrideDilation_error hsd with h' | h' <;>
              exact PyError.noConfusion (h'.symm.trans hcon)
          | ok p =>
            obtain ⟨fs, dil⟩ := p
            dsimp only
            cases hms : _make_stage nf inC
                (cfg.num_groups * cfg.width_per_group * 2 ^ (spec.index - 1))
                (cfg.res2_out_channels * 2 ^ (spec.index - 1)) spec.block_count
                cfg.num_groups cfg.stride_in_1x1 fs dil
                ⟨dflag, cfg.with_modulated_dcn, cfg.deformable_groups⟩ ks
                (cfg.dont_load.contains ("layer" ++ toString spec.index) &&
                 (cfg.trans_func == "BottleneckWithFixedBatchNorm")) with
            | error e =>
              dsimp only
              intro hcon
              injection hcon with hcon
              exact PyError.noConfusion ((make_stage_error hms).symm.trans hcon)
            | ok blocks =>
              dsimp only
              intro hcon
              exact Except.noConfusion hcon
      · intro s hok j b hj
        obtain ⟨_, _, _, _, _, fs, dil, mks, dflag, _, hsmk2, hlen, _, hms⟩ :=
          buildOneStage_ok hok
        rw [hsmk] at hsmk2
        injection hsmk2 with hsmk2
        subst hsmk2
        unfold _make_stage at hms
        by_cases hke : ks.isEmpty = true
        · have hks0 : ks = [] := List.isEmpty_iff.mp hke
          rw [if_pos hke] at hms
          obtain ⟨hlen2, _⟩ := makeStageGo_ok spec.block_count 0 fs inC s.blocks hms
          have hb0 : s.blocks.length = 0 := by
            rw [hlen2, ← heq, hks0]
            rfl
          have hjlt := (List.getElem?_eq_some.mp hj).1
          omega
        · rw [if_neg hke] at hms
          obtain ⟨_, hpt⟩ := makeStageGo_ok spec.block_count 0 fs inC s.blocks hms
          obtain ⟨mk, hmk, hbeq⟩ := hpt j b hj
          refine ⟨mk, by simpa using hmk, ?_⟩
          rw [hbeq]
          exact Bottleneck.make_middleKernel _ _ _ _ _ _ _ _ _ _ _

/-- Claim C6 witness: stage 1 of R-50-C4 has 3 blocks; a configured
kernel-size list of length 2 for it makes construction fail with the
length-check assertion. -/
theorem c6_middle_kernel_sizes_witness :
    buildOneStage cfgC6bad NormKind.frozenBN none ⟨1, 3, false⟩ 0 64 =
      Except.error PyError.assertionError := by
  exact ((c6_middle_kernel_sizes cfgC6bad NormKind.frozenBN none ⟨1, 3, false⟩ 0
    64).2 [3, 1] rfl).1 (by decide) false rfl

/-- Claim C4 concerns the dilation-length check of `ResNet.__init__`
(resnet.py line 338).  That check is `assert(cond, msg)`: in Python this
asserts a two-element tuple, which is always truthy, so the claimed
configuration error is never raised.  At the failing input `cfgC4` - an
R-50-C4 architecture (3 stage specs) with an empty `DILATIONS` list and a
pyramid network so that the dilation list is never even indexed -
construction completes all three stages without any error. -/
theorem c4_dilation_check_never_fires :
    cfgC4.dilations.length = 0
  ∧ (_STAGE_SPECS cfgC4.conv_body).map List.length = some 3
  ∧ (ResNet.make cfgC4).map (fun m => m.stages.map (fun s => s.index)) =
      Except.ok [1, 2, 3] := by
  refine ⟨rfl, rfl, ?_⟩
  rfl

theorem all_replicate_true (n : Nat) :
    (List.replicate n true).all (fun b => b) = true := by
  rw [List.all_eq_true]
  intro x hx
  rw [List.eq_of_mem_replicate hx]

theorem all_map_false (l : List Bool) :
    (l.map (fun _ => false)).all (fun b => !b) = true := by
  rw [List.all_eq_true]
  intro x hx
  rw [List.mem_map] at hx
  obtain ⟨_, _, hx⟩ := hx
  rw [← hx]
  rfl

/-- Claim C1 counterexample: a valid R-50-C4 configuration whose
`BACKBONE_OUT_CHANNELS` is 256.  The builder succeeds; the final stage has
index 3 and channel count `stage2_out_channels * 2^(3-1) = 1024`, yet the
returned backbone's `out_channels` is 256, not 1024. -/
theorem c1_counterexample :
    (build_resnet_backbone cfgC1).map (fun m => m.out_channels) = Except.ok 256
  ∧ (build_resnet_backbone cfgC1).map
      (fun m => m.body.stages.map (fun s => (s.index, s.out_channels))) =
        Except.ok [(1, 256), (2, 512), (3, 1024)]
  ∧ cfgC1.res2_out_channels * 2 ^ (3 - 1) = 1024
  ∧ (256 : Nat) ≠ 1024 := by
  exact ⟨rfl, rfl, rfl, by decide⟩

/-- Claim C1 (amended): the backbone returned by `build_resnet_backbone`
exposes `out_channels` equal to the configured `BACKBONE_OUT_CHANNELS` value
(not derived from the stages), while every stage of the body - in particular
the final one - has channel count `stage2_out_channels * 2^(index-1)`. -/
theorem c1_amended_out_channels (cfg : Config) (m : BackboneModel)
    (h : build_resnet_backbone cfg = Except.ok m) :
    m.out_channels = cfg.backbone_out_channels
  ∧ ∀ s ∈ m.body.stages,
      s.out_channels = cfg.res2_out_channels * 2 ^ (s.index - 1) := by
  unfold build_resnet_backbone at h
  cases hm : ResNet.make cfg with
  | error e => rw [hm] at h; exact absurd h (by simp)
  | ok body =>
    rw [hm] at h
    dsimp only at h
    cases hrr : (if cfg.resreg = 4 then Except.ok (some ResRegKind.up4)
           else if cfg.resreg = 2 then Except.ok (some ResRegKind.up2)
           else if cfg.resreg = -2 then Except.ok (some ResRegKind.down2)
           else if cfg.resreg = 1 then Except.ok (some ResRegKind.keep1)
           else if cfg.resreg = 0 then Except.ok (none : Option ResRegKind)
           else Except.error PyError.exitError) with
    | error e => rw [hrr] at h; exact absurd h (by simp)
    | ok rr =>
      rw [hrr] at h
      dsimp only at h
      injection h with h
      subst h
      refine ⟨rfl, ?_⟩
      intro s hs
      obtain ⟨_, _, _, _, stages0, _, _, _, _, hbs, hfz⟩ := ResNet.make_ok hm
      obtain ⟨s0, hs0, hidx, hout, _, _, _⟩ := freezeBackbone_core hfz s hs
      obtain ⟨spec, _, c, hone⟩ := buildStages_mem hbs s0 hs0
      rcases hone with hone | ⟨j, _, hone⟩
      all_goals
        obtain ⟨hidx0, _, _, hout0, _⟩ := buildOneStage_ok hone
        rw [hout, hidx, hout0, hidx0]

/-- Claim C1 (amended) witness: the theorem applied at the concrete
configuration `cfgC1`. -/
theorem c1_amended_out_channels_witness :
    backboneC1.out_channels = cfgC1.backbone_out_channels
  ∧ ∀ s ∈ backboneC1.body.stages,
      s.out_channels = cfgC1.res2_out_channels * 2 ^ (s.index - 1) := by
  exact c1_amended_out_channels cfgC1 backboneC1 (by rfl)

/-- Claim C2: for a constructed backbone with freeze index `f`: `f < 0`
freezes nothing; `f = 0` also freezes nothing (`range(0)` is empty); for
`f ≥ 0`, every parameter of the stem (stage 0, frozen as soon as `f ≥ 1`)
and of every stage with index strictly below `f` has `requires_grad` cleared,
while every parameter of stages with index at least `f` stays trainable. -/
theorem c2_freeze_boundaries (cfg : Config) (m : ResNetModel)
    (h : ResNet.make cfg = Except.ok m) :
    (cfg.freeze_at < 0 →
        m.stemParams.all (fun b => b) = true ∧
        ∀ s ∈ m.stages, s.params.all (fun b => b) = true)
  ∧ (cfg.freeze_at = 0 →
        m.stemParams.all (fun b => b) = true ∧
        ∀ s ∈ m.stages, s.params.all (fun b => b) = true)
  ∧ (0 ≤ cfg.freeze_at →
        (1 ≤ cfg.freeze_at → m.stemParams.all (fun b => !b) = true)
      ∧ ∀ s ∈ m.stages,
          ((s.index : Int) < cfg.freeze_at → s.params.all (fun b => !b) = true)
        ∧ (cfg.freeze_at ≤ (s.index : Int) → s.params.all (fun b => b) = true)) := by
  obtain ⟨stemNorm, specs, transNorm, strides, stages0, _, hspecs, _, _, hbs, hfz⟩ :=
    ResNet.make_ok h
  have hstage0 : ∀ s0 ∈ stages0,
      s0.params = List.replicate s0.blocks.length true ∧ 1 ≤ s0.index := by
    intro s0 hs0
    obtain ⟨spec, hspecmem, c, hone⟩ := buildStages_mem hbs s0 hs0
    rcases hone with hone | ⟨j, _, hone⟩
    all_goals
      obtain ⟨hidx0, _, _, _, hpar, _⟩ := buildOneStage_ok hone
      exact ⟨hpar, by rw [hidx0]; exact stageSpecs_index_pos hspecs spec hspecmem⟩
  refine ⟨?_, ?_, ?_⟩
  · intro hf
    have hmeq := freezeBackbone_neg hf hfz
    subst hmeq
    constructor
    · rfl
    · intro s hs
      rw [(hstage0 s hs).1]
      exact all_replicate_true _
  · intro hf0
    obtain ⟨_, hsp, hst⟩ := freezeBackbone_nonneg (by omega) hfz
    have htn : cfg.freeze_at.toNat = 0 := by omega
    rw [htn] at hsp hst
    constructor
    · rw [hsp, if_pos rfl]
      rfl
    · intro s hs
      rw [hst, map_freeze_le_one _ 0 (by omega)] at hs
      rw [(hstage0 s hs).1]
      exact all_replicate_true _
  · intro hf
    obtain ⟨_, hsp, hst⟩ := freezeBackbone_nonneg hf hfz
    constructor
    · intro hf1
      have hne : cfg.freeze_at.toNat ≠ 0 := by omega
      rw [hsp, if_neg hne]
      rfl
    · intro s hs
      rw [hst] at hs
      obtain ⟨s0, hs0, heq⟩ := List.mem_map.mp hs
      obtain ⟨hpar0, hidxpos⟩ := hstage0 s0 hs0
      by_cases hc : 1 ≤ s0.index ∧ s0.index < cfg.freeze_at.toNat
      · rw [if_pos hc] at heq
        rw [← heq]
        constructor
        · intro _
          show ((freezeStage s0).params.all (fun b => !b)) = true
          unfold freezeStage
          exact all_map_false _
        · intro hge
          have hii : (freezeStage s0).index = s0.index := rfl
          rw [hii] at hge
          exact absurd hge (by omega)
      · rw [if_neg hc] at heq
        rw [← heq]
        constructor
        · intro hlt
          exfalso
          exact hc ⟨hidxpos, by omega⟩
        · intro _
          rw [hpar0]
          exact all_replicate_true _

/-- Claim C2 witness: with `freeze_at = 2` on R-50-C4, the stem (stage 0) is
frozen and stage 2 (index 2, not below 2) stays trainable. -/
theorem c2_freeze_boundaries_witness :
    modelC2.stemParams.all (fun b => !b) = true := by
  exact ((c2_freeze_boundaries cfgC2 modelC2 (by rfl)).2.2 (by decide)).1 (by decide)

/-- Claim C3: with no pyramid network and no channel-regularization adapter,
the stride schedule is exactly the fixed anchor-stride table (4 to [1,1,1],
8 to [1,1,2], 16 to [1,2,2], 32 to [2,2,2]), any other anchor stride is a
fatal configuration error (also aborting `ResNet.__init__` once the registry
lookups succeed), and each built stage's first-block stride is the table
entry at its position; with a pyramid network or adapter configured, the
table is never consulted (the schedule is `none` whatever the anchor stride),
every stage with index above 1 gets first stride 2, the index-1 stage gets
first stride 1, and every block's dilation is forced to 1. -/
theorem c3_stride_schedule (cfg : Config) :
    ((cfg.use_fpn = false ∧ cfg.resreg = 0) →
        (cfg.anchor_stride0 = 4 → strideSchedule cfg = Except.ok (some [1, 1, 1]))
      ∧ (cfg.anchor_stride0 = 8 → strideSchedule cfg = Except.ok (some [1, 1, 2]))
      ∧ (cfg.anchor_stride0 = 16 → strideSchedule cfg = Except.ok (some [1, 2, 2]))
      ∧ (cfg.anchor_stride0 = 32 → strideSchedule cfg = Except.ok (some [2, 2, 2]))
      ∧ (cfg.anchor_stride0 ≠ 4 → cfg.anchor_stride0 ≠ 8 → cfg.anchor_stride0 ≠ 16 →
          cfg.anchor_stride0 ≠ 32 →
          strideSchedule cfg = Except.error PyError.exitError
        ∧ (∀ sn specs tn, _STEM_MODULES cfg.stem_func = some sn →
            _STAGE_SPECS cfg.conv_body = some specs →
            _TRANSFORMATION_MODULES cfg.trans_func = some tn →
            ResNet.make cfg = Except.error PyError.exitError)))
  ∧ ((cfg.use_fpn = true ∨ cfg.resreg ≠ 0) →
        strideSchedule cfg = Except.ok none
      ∧ ∀ m, ResNet.make cfg = Except.ok m → ∀ s ∈ m.stages,
          (∀ b ∈ s.blocks, b.spatialDilation = 1)
        ∧ (∀ b0, s.blocks.head? = some b0 →
            b0.totalStride = if 1 < s.index then 2 else 1))
  ∧ (∀ m tbl, ResNet.make cfg = Except.ok m →
      strideSchedule cfg = Except.ok (some tbl) →
      ∀ (j : Nat) (s : StageModule), m.stages[j]? = some s →
        ∀ b0, s.blocks.head? = some b0 →
          ∃ fs, tbl[j]? = some fs ∧ b0.totalStride = fs) := by
  refine ⟨?_, ?_, ?_⟩
  · intro hcond
    refine ⟨?_, ?_, ?_, ?_, ?_⟩
    · intro ha
      unfold strideSchedule
      rw [if_pos hcond, if_pos ha]
    · intro ha
      unfold strideSchedule
      rw [if_pos hcond, if_neg (by omega), if_pos ha]
    · intro ha
      unfold strideSchedule
      rw [if_pos hcond, if_neg (by omega), if_neg (by omega), if_pos ha]
    · intro ha
      unfold strideSchedule
      rw [if_pos hcond, if_neg (by omega), if_neg (by omega), if_neg (by omega),
        if_pos ha]
    · intro h4 h8 h16 h32
      have hsch : strideSchedule cfg = Except.error PyError.exitError := by
        unfold strideSchedule
        rw [if_pos hcond, if_neg h4, if_neg h8, if_neg h16, if_neg h32]
      refine ⟨hsch, ?_⟩
      intro sn specs tn hsn hspecs htn
      unfold ResNet.make
      rw [hsn]
      dsimp only
      rw [hspecs]
      dsimp only
      rw [htn]
      dsimp only
      rw [hsch]
  · intro hmode
    have hcond : ¬(cfg.use_fpn = false ∧ cfg.resreg = 0) := by
      rintro ⟨ha, hb⟩
      rcases hmode with hc | hc
      · rw [hc] at ha
        exact Bool.noConfusion ha
      · exact hc hb
    have hsch : strideSchedule cfg = Except.ok none := by
      unfold strideSchedule
      rw [if_neg hcond]
    refine ⟨hsch, ?_⟩
    intro m hm s hs
    obtain ⟨_, specs, _, strides, stages0, _, hspecs, _, hstr, hbs, hfz⟩ :=
      ResNet.make_ok hm
    obtain ⟨s0, hs0, hidx, _, _, hblocks, _⟩ := freezeBackbone_core hfz s hs
    obtain ⟨spec, _, c, hone⟩ := buildStages_mem hbs s0 hs0
    rcases hone with hone | ⟨j, _, hone⟩
    all_goals
      obtain ⟨hidx0, _, _, _, _, fs, dil, mks, dflag, _, _, _, hsd, hms⟩ :=
        buildOneStage_ok hone
      rw [stageStrideDilation_fpn hmode] at hsd
      injection hsd with hsd
      rw [Prod.mk.injEq] at hsd
      obtain ⟨hfs, hdil⟩ := hsd
      obtain ⟨_, hdilb, hstrideb⟩ := make_stage_blocks hms
      constructor
      · intro b hb
        rw [hblocks] at hb
        rw [hdilb b hb, ← hdil]
      · intro b0 hb0
        rw [hblocks] at hb0
        rw [hstrideb b0 hb0, ← hfs, hidx, hidx0]
  · intro m tbl hm hsch j s hj b0 hb0
    obtain ⟨_, specs, _, strides, stages0, _, hspecs, _, hstr, hbs, hfz⟩ :=
      ResNet.make_ok hm
    rw [hsch] at hstr
    injection hstr with hstr
    subst hstr
    obtain ⟨s0, hj0, hidx, hblocks⟩ := freezeBackbone_getElem hfz j s hj
    obtain ⟨hlen, hpt⟩ := buildStages_ok specs 0 cfg.stem_out_channels stages0 hbs
    have hjlt : j < stages0.length := (List.getElem?_eq_some.mp hj0).1
    have hjs : j < specs.length := by omega
    obtain ⟨c, hone⟩ := hpt j specs[j] s0 (List.getElem?_eq_getElem hjs) hj0
    obtain ⟨_, _, _, _, _, fs, dil, mks, dflag, _, _, _, hsd, hms⟩ :=
      buildOneStage_ok hone
    have hmode : ¬(cfg.use_fpn = true ∨ cfg.resreg ≠ 0) := by
      intro hcon
      have hcond : ¬(cfg.use_fpn = false ∧ cfg.resreg = 0) := by
        rintro ⟨ha, hb⟩
        rcases hcon with hc | hc
        · rw [hc] at ha
          exact Bool.noConfusion ha
        · exact hc hb
      unfold strideSchedule at hsch
      rw [if_neg hcond] at hsch
      injection hsch with hsch
      exact Option.noConfusion hsch
    obtain ⟨ss, hsseq, hssj, _⟩ := stageStrideDilation_table hmode hsd
    injection hsseq with hsseq
    subst hsseq
    obtain ⟨_, _, hstrideb⟩ := make_stage_blocks hms
    rw [hblocks] at hb0
    exact ⟨fs, by simpa using hssj, hstrideb b0 hb0⟩

/-- Claim C3 witness: the theorem applied at three concrete configurations:
table mode with anchor stride 8, pyramid mode (where the invalid anchor
stride 7 is irrelevant), and table mode with invalid anchor stride 7. -/
theorem c3_stride_schedule_witness :
    strideSchedule cfgC3a = Except.ok (some [1, 1, 2])
  ∧ strideSchedule cfgC3b = Except.ok none
  ∧ strideSchedule cfgC3bad = Except.error PyError.exitError := by
  refine ⟨?_, ?_, ?_⟩
  · exact ((c3_stride_schedule cfgC3a).1 (by decide)).2.1 rfl
  · exact ((c3_stride_schedule cfgC3b).2.1 (Or.inl rfl)).1
  · exact (((c3_stride_schedule cfgC3bad).1 (by decide)).2.2.2.2 (by decide)
      (by decide) (by decide) (by decide)).1

/-- Claim C9: the forward pass runs the stem first, threads each stage in
stage-index order, and returns exactly the outputs of the stages whose
catalog entry marks `return_features` (the per-stage flags equal the catalog
entry's flags), in order of strictly increasing stage index; outputs of
non-exported stages are filtered out. -/
theorem c9_forward_exported (cfg : Config) (m : ResNetModel)
    (h : ResNet.make cfg = Except.ok m) (T : Type) (ops : TensorOps T) (x : T) :
    m.forward ops x =
      ((stageTrace ops m.stages (StemModule.applyOps ops m.stem x)).filter
        (fun p => p.1.return_features)).map (fun p => p.2)
  ∧ (∃ specs, _STAGE_SPECS cfg.conv_body = some specs ∧
      m.stages.map (fun s => (s.index, s.return_features)) =
        specs.map (fun sp => (sp.index, sp.return_features)))
  ∧ (((stageTrace ops m.stages (StemModule.applyOps ops m.stem x)).filter
        (fun p => p.1.return_features)).map (fun p => p.1.index)).Pairwise (· < ·) := by
  obtain ⟨_, specs, _, strides, stages0, _, hspecs, _, _, hbs, hfz⟩ := ResNet.make_ok h
  have hpairs : m.stages.map (fun s => (s.index, s.return_features)) =
      specs.map (fun sp => (sp.index, sp.return_features)) := by
    rw [freezeBackbone_pairs hfz]
    exact buildStages_pairs specs 0 cfg.stem_out_channels stages0 hbs
  refine ⟨?_, ⟨specs, hspecs, hpairs⟩, ?_⟩
  · unfold ResNetModel.forward
    exact forwardStages_eq_filter ops m.stages _
  · have hidxeq : m.stages.map (fun s => s.index) = specs.map (fun sp => sp.index) := by
      have hcomp := congrArg (List.map Prod.fst) hpairs
      rw [List.map_map, List.map_map] at hcomp
      simpa [Function.comp] using hcomp
    have hsorted : (m.stages.map (fun s => s.index)).Pairwise (· < ·) := by
      rw [hidxeq]
      rcases stageSpecs_indices hspecs with h' | h' <;> rw [h'] <;> decide
    have htr : (stageTrace ops m.stages (StemModule.applyOps ops m.stem x)).map
        (fun p => p.1.index) = m.stages.map (fun s => s.index) := by
      have hfst := congrArg (List.map (fun s : StageModule => s.index))
        (stageTrace_fst ops m.stages (StemModule.applyOps ops m.stem x))
      rw [List.map_map] at hfst
      simpa [Function.comp] using hfst
    have hsub : List.Sublist
        (((stageTrace ops m.stages (StemModule.applyOps ops m.stem x)).filter
          (fun p => p.1.return_features)).map (fun p => p.1.index))
        ((stageTrace ops m.stages (StemModule.applyOps ops m.stem x)).map
          (fun p => p.1.index)) :=
      List.Sublist.map _ (List.filter_sublist _)
    refine List.Pairwise.sublist hsub ?_
    rw [htr]
    exact hsorted

/-- Claim C9 witness: the filter equation of the forward pass evaluated at a
concrete R-50-C4 model with concrete numeric tensor operations. -/
theorem c9_forward_exported_witness :
    modelC9.forward natOps 0 =
      ((stageTrace natOps modelC9.stages (StemModule.applyOps natOps modelC9.stem 0)).filter
        (fun p => p.1.return_features)).map (fun p => p.2) := by
  exact (c9_forward_exported cfgC9 modelC9 (by rfl) Nat natOps 0).1

end MaskRCNN
